import Mathlib

/-!
Shallow embedding of the five AWS Kafka / CloudWatch discovery scripts of
this repository (disc_AWSKafka_Brokers.py, disc_AWSKafka_ItemsBrokers.py,
disc_AWSKafka_ItemsClusters.py, disc_AWSKafka_hostsClusters.py,
host_cluster_test.py) and proofs about their observable behaviour.

Modelling conventions:
* CloudWatch datapoint values are modelled as exact rationals; Python's
  binary floating point is idealized to exact decimal arithmetic.
* A print to standard output, an AWS API call and a file write are each
  recorded as one event of a run; AWS responses are inputs of the run.
* JSON documents are values of the inductive `J`; the three
  serializations used by the scripts (compact separators, default
  separators, indent=4) are `renderC`, `renderD` and `renderI`.  JSON
  string escaping is modelled as the identity (every string the theorems
  inspect is plain).
* Timestamps travel as their already-formatted strings (strftime is
  abstracted; no claim concerns timestamp formatting).
-/

namespace KafkaCW

/-- Floor of a rational number as an integer. -/
def qfloor (q : ℚ) : ℤ := q.num.fdiv (q.den : ℤ)

/-- Python round-to-cents: nearest integer to 100*q, ties to even (model
of CPython banker's rounding used by round(v, 2)). -/
def roundHalfEvenCents (q : ℚ) : ℤ :=
  let x : ℚ := 100 * q
  let f : ℤ := qfloor x
  let r : ℚ := x - (f : ℚ)
  if r < 1/2 then f
  else if 1/2 < r then f + 1
  else if f % 2 = 0 then f else f + 1

/-- Exactly-two-digit rendering of a cents remainder (m < 100). -/
def pad2 (m : Nat) : String := String.mk [Nat.digitChar (m / 10), Nat.digitChar (m % 10)]

/-- Model of Python f-string formatting round(v, 2) with :.2f — round to
cents, then print with exactly two digits after the decimal point. -/
def round2fmt (q : ℚ) : String :=
  let c := roundHalfEvenCents q
  (if c < 0 then "-" else "") ++ toString (c.natAbs / 100) ++ "." ++ pad2 (c.natAbs % 100)

/-- Search (from k, with the given fuel) for the least number of decimal
digits that writes a fraction with denominator d exactly. -/
def findScaleAux (d : Nat) : Nat → Nat → Option Nat
  | _, 0 => none
  | k, fuel + 1 => if 10 ^ k % d == 0 then some k else findScaleAux d (k + 1) fuel

/-- Least number of decimal digits that writes a fraction with
denominator d exactly (searched up to 1100, enough for any binary
floating-point denominator). -/
def findScale (d : Nat) : Option Nat := findScaleAux d 0 1100

/-- Zero-padded k-digit rendering of m. -/
def padZeros (k : Nat) (m : Nat) : String :=
  let s := toString m
  String.mk (List.replicate (k - s.length) '0') ++ s

/-- Model of Python str() on a float whose value is a short decimal: the
minimal decimal expansion with at least one digit after the point, so
str(7.0) = "7.0" and str(7.5) = "7.5". -/
def pyFloatStr (q : ℚ) : String :=
  let sign := if q < 0 then "-" else ""
  let n := q.num.natAbs
  let d := q.den
  match findScale d with
  | some 0 => sign ++ toString n ++ ".0"
  | some k => sign ++ toString (n * (10 ^ k / d) / 10 ^ k) ++ "." ++ padZeros k (n * (10 ^ k / d) % 10 ^ k)
  | none => sign ++ toString n ++ "/" ++ toString d

/-- Python str.split(sep) on a character list, for a one-character
separator: cut at every occurrence of the separator (adjacent
separators and ends produce empty segments, as in Python). -/
def splitChars (sep : Char) : List Char → List (List Char)
  | [] => [[]]
  | c :: cs =>
    let rest := splitChars sep cs
    if c = sep then [] :: rest
    else match rest with
         | [] => [[c]]
         | g :: gs => (c :: g) :: gs

/-- Python str.split(sep) for a one-character separator. -/
def pySplit (s : String) (sep : Char) : List String :=
  (splitChars sep s.data).map String.mk

/-- Whether a string ends in a decimal point followed by exactly two
digits — the shape the spec asserts for average-type values. -/
def twoDecCheck (s : String) : Bool :=
  match s.data.reverse with
  | b2 :: b1 :: c :: _ => b1.isDigit && b2.isDigit && (c == '.')
  | _ => false

/-- JSON documents, as the scripts produce them. -/
inductive J where
  | str (s : String)
  | int (n : ℤ)
  | num (q : ℚ)
  | arr (elems : List J)
  | obj (fields : List (String × J))

/-- JSON string serialization (escaping modelled as the identity). -/
def quoteS (s : String) : String := "\"" ++ s ++ "\""

mutual
/-- json.dumps with item separator a and key separator b. -/
def renderSep (a b : String) : J → String
  | .str s => quoteS s
  | .int n => toString n
  | .num q => pyFloatStr q
  | .arr xs => "[" ++ renderSepList a b xs ++ "]"
  | .obj fs => "\x7b" ++ renderSepFields a b fs ++ "\x7d"
/-- Array elements joined by the item separator. -/
def renderSepList (a b : String) : List J → String
  | [] => ""
  | [x] => renderSep a b x
  | x :: y :: xs => renderSep a b x ++ a ++ renderSepList a b (y :: xs)
/-- Object fields joined by the item separator, keys and values by the
key separator. -/
def renderSepFields (a b : String) : List (String × J) → String
  | [] => ""
  | [kv] => quoteS kv.1 ++ b ++ renderSep a b kv.2
  | kv :: kv2 :: fs => quoteS kv.1 ++ b ++ renderSep a b kv.2 ++ a ++ renderSepFields a b (kv2 :: fs)
end

/-- json.dumps(x, separators=(",", ":")) — the compact form. -/
def renderC (j : J) : String := renderSep "," ":" j

/-- json.dumps(x) with the default ", " and ": " separators. -/
def renderD (j : J) : String := renderSep ", " ": " j

/-- n spaces. -/
def nspaces (n : Nat) : String := String.mk (List.replicate n ' ')

mutual
/-- json.dumps(x, indent=4), at the given indentation level. -/
def renderI (lvl : Nat) : J → String
  | .str s => quoteS s
  | .int n => toString n
  | .num q => pyFloatStr q
  | .arr [] => "[]"
  | .arr (x :: xs) => "[\n" ++ renderIList (lvl + 4) (x :: xs) ++ "\n" ++ nspaces lvl ++ "]"
  | .obj [] => "\x7b\x7d"
  | .obj (f :: fs) => "\x7b\n" ++ renderIFields (lvl + 4) (f :: fs) ++ "\n" ++ nspaces lvl ++ "\x7d"
/-- Indented array elements, one per line, comma separated. -/
def renderIList (lvl : Nat) : List J → String
  | [] => ""
  | [x] => nspaces lvl ++ renderI lvl x
  | x :: y :: xs => nspaces lvl ++ renderI lvl x ++ ",\n" ++ renderIList lvl (y :: xs)
/-- Indented object fields, one per line, comma separated. -/
def renderIFields (lvl : Nat) : List (String × J) → String
  | [] => ""
  | [kv] => nspaces lvl ++ quoteS kv.1 ++ ": " ++ renderI lvl kv.2
  | kv :: kv2 :: fs => nspaces lvl ++ quoteS kv.1 ++ ": " ++ renderI lvl kv.2 ++ ",\n" ++ renderIFields lvl (kv2 :: fs)
end

/-- The string value of a field of a JSON object (none when the document
is not an object, the key is absent, or the value is not a string). -/
def lookupStr (j : J) (k : String) : Option String :=
  match j with
  | .obj fs =>
    match fs.find? (fun kv => kv.1 == k) with
    | some kv => match kv.2 with
                 | .str s => some s
                 | _ => none
    | none => none
  | _ => none

/-- Whether a JSON object has a field of the given name. -/
def hasField (j : J) (k : String) : Bool :=
  match j with
  | .obj fs => fs.any (fun kv => kv.1 == k)
  | _ => false

/-- One observable effect of a run: a print to standard output, an AWS
API call, or a file write. -/
inductive Ev where
  | out (s : String)
  | aws (call : String)
  | file (path : String)
deriving DecidableEq

/-- How the process ended: normal completion, explicit exit(code), or an
uncaught exception. -/
inductive PStatus where
  | ok
  | exited (code : Nat)
  | raised (exc : String)
deriving DecidableEq

/-- The events of a run together with its final status. -/
structure RunOut where
  events : List Ev
  status : PStatus
deriving DecidableEq

/-- The print payload of an event, if it is a print. -/
def outProj : Ev → Option String
  | .out s => some s
  | .aws _ => none
  | .file _ => none

/-- The lines printed to standard output during a run. -/
def outsOf (r : RunOut) : List String := r.events.filterMap outProj

/-- Append a key if it is not already present (Python dict key order). -/
def insertNew (l : List String) (k : String) : List String :=
  if k ∈ l then l else l ++ [k]

/-- First-occurrence deduplication: the key order of a Python dict built
by repeated updates. -/
def dedupFirst (ks : List String) : List String := ks.foldl insertNew []

/-- Python d[k] = d.get(k, 0) + v on an insertion-ordered dict. -/
def dictAdd : List (String × ℚ) → String → ℚ → List (String × ℚ)
  | [], k, v => [(k, v)]
  | kv :: rest, k, v =>
    if kv.1 = k then (kv.1, kv.2 + v) :: rest else kv :: dictAdd rest k v

/-- A sequence of dictAdd updates. -/
def dictAddAll (d : List (String × ℚ)) (ps : List (String × ℚ)) : List (String × ℚ) :=
  ps.foldl (fun d p => dictAdd d p.1 p.2) d

/-- Total of the values a key receives in a sequence of updates. -/
def sumAt (ps : List (String × ℚ)) (k : String) : ℚ :=
  ((ps.filter (fun p => p.1 == k)).map Prod.snd).sum

/-- The canonical form of a dict built by dictAdd updates: keys in first
occurrence order, each carrying the total of its updates. -/
def canon (ps : List (String × ℚ)) : List (String × ℚ) :=
  (dedupFirst (ps.map Prod.fst)).map (fun k => (k, sumAt ps k))

/-- One element of GetMetricData's MetricDataResults: the query id and
the returned series.  Timestamps and Values are parallel lists in the
API, modelled as one list of (timestamp, value) pairs. -/
structure MetricResult where
  resId : String
  points : List (String × ℚ)
deriving DecidableEq

/-- One reshaped datapoint (Timestamp / Average dict). -/
structure Datapoint where
  timestamp : String
  average : ℚ
deriving DecidableEq

/-- The spec's reading of the reshaping step: the single most recent
timestamp/value pair of a returned series — its last element — or
nothing when the series is empty. -/
def lastDP (r : MetricResult) : List Datapoint :=
  match r.points.getLast? with
  | none => []
  | some p => [⟨p.1, p.2⟩]

/-- Append a datapoint at a dict key that must already exist; none models
the KeyError raised when the key is absent. -/
def updAssoc : List (String × List Datapoint) → String → Datapoint → Option (List (String × List Datapoint))
  | [], _, _ => none
  | kv :: rest, k, d =>
    if kv.1 = k then some ((kv.1, kv.2 ++ [d]) :: rest)
    else match updAssoc rest k d with
         | some rest2 => some (kv :: rest2)
         | none => none

/-- Python str() of the optional cluster argument inside an f-string
(None prints as "None"). -/
def pyOptStr : Option String → String
  | none => "None"
  | some s => s

/-- Python `x if x else d` on an optional string (None and "" falsy). -/
def pyOr (m : Option String) (d : String) : String :=
  match m with
  | some s => if s = "" then d else s
  | none => d

/-- Truthiness of the optional cluster-name argument. -/
def strTruthy : Option String → Bool
  | none => false
  | some s => s != ""

/-- check_commands: shutil.which for each required command, printing the
first missing one.  host_cluster_test.py and disc_AWSKafka_ItemsBrokers.py
call it; disc_AWSKafka_Brokers.py and disc_AWSKafka_ItemsClusters.py
define the identical function but never call it. -/
def check_commands_aux (which : String → Bool) : List String → Bool × List Ev
  | [] => (true, [])
  | c :: cs =>
    if which c then check_commands_aux which cs
    else (false, [Ev.out ("No se encontro el comando " ++ c)])

/-- check_commands over the fixed command list. -/
def check_commands (which : String → Bool) : Bool × List Ev :=
  check_commands_aux which ["aws", "jq"]

/-- A broker record as enumerated by get_kafka_brokers (cluster name,
broker id, raw endpoint name, instance type). -/
structure Broker where
  clusterName : String
  brokerId : Nat
  brokerName : String
  instanceType : String
deriving DecidableEq

/-- The per-broker structure produced by generate_metrics_json of the two
broker scripts: identity plus an insertion-ordered Metrics dict. -/
structure BMJson where
  clusterName : String
  brokerId : Nat
  brokerName : String
  metrics : List (String × List Datapoint)
deriving DecidableEq

namespace HCT

/-- host_cluster_test.py: the messages table of zbx_json_output. -/
def messages (zbx_exit : Nat) : String :=
  if zbx_exit = 0 then "Clusters obtenidos con exito."
  else if zbx_exit = 1 then "Error en la obtencion de clusters."
  else if zbx_exit = 2 then "Información sobre ejecucion: revisión necesaria."
  else "Mensaje no definido."

/-- host_cluster_test.py zbx_json_output: it returns the status object
(it does not print). -/
def zbx_json_output (profile : String) (zbx_exit : Nat) (zbx_value : Nat) (zbx_msg : Option String) : J :=
  J.obj [("\x7b#INFO\x7d", J.str ("disc_AWSKafka_HostsCluster.py " ++ profile ++ " Kafka")),
         ("\x7b#MSG\x7d", J.str (pyOr zbx_msg (messages zbx_exit))),
         ("\x7b#EXIT\x7d", J.str (toString zbx_exit)),
         ("\x7b#REGISTROS\x7d", J.str (toString zbx_value))]

/-- get_kafka_clusters: one list_clusters call; an exception is caught and
turned into (None, exception message); an empty list becomes (None,
not-found message).  The api argument is the environment: the cluster
names the call returns, or the exception text it raises. -/
def get_kafka_clusters (api : Except String (List String)) : List Ev × Option (List String) × Option String :=
  ([Ev.aws "kafka.list_clusters"],
   match api with
   | .error e => (none, some ("Error obteniendo clusters: " ++ e))
   | .ok clusters =>
     if clusters.isEmpty then (none, some "No se encontraron clusters disponibles.")
     else (some clusters, none))

/-- Python truthiness of the clusters value (None and [] are falsy). -/
def truthy : Option (List String) → Bool
  | none => false
  | some l => !l.isEmpty

/-- print_clusters_as_json: the data array of the one document printed —
a status row (exit 0 when clusters is truthy, else 2; record count; the
error message when one was passed) followed by one row per cluster. -/
def clusters_data (clusters : Option (List String)) (awprofile : String) (error_msg : Option String) : List J :=
  let total := if truthy clusters then (clusters.getD []).length else 0
  zbx_json_output awprofile (if truthy clusters then 0 else 2) total error_msg ::
    (if truthy clusters then
      (clusters.getD []).map (fun c =>
        J.obj [("\x7b#AWSPROFILE\x7d", J.str awprofile),
               ("\x7b#NAMESPACE\x7d", J.str "AWS/Kafka"),
               ("\x7b#CLUSTERNAME\x7d", J.str c)])
     else [])

/-- The whole document print_clusters_as_json serializes. -/
def clusters_output (clusters : Option (List String)) (awprofile : String) (error_msg : Option String) : J :=
  J.obj [("data", J.arr (clusters_data clusters awprofile error_msg))]

/-- print_clusters_as_json prints the document with compact separators. -/
def print_clusters_as_json (clusters : Option (List String)) (awprofile : String) (error_msg : Option String) : List Ev :=
  [Ev.out (renderC (clusters_output clusters awprofile error_msg))]

/-- A whole run of host_cluster_test.py: the guarded entry point checks
the tools and exits 1 when one is missing, otherwise main enumerates,
filters when the filter argument and the clusters are truthy, and prints
once. -/
def run (which : String → Bool) (api : Except String (List String)) (filterArg : Option String) (profile : String) : RunOut :=
  let chk := check_commands which
  if chk.1 then
    let gk := get_kafka_clusters api
    let clusters0 := gk.2.1
    let error_msg := gk.2.2
    let clusters :=
      if strTruthy filterArg && truthy clusters0 then
        some ((clusters0.getD []).filter (fun c => c == filterArg.getD ""))
      else clusters0
    ⟨gk.1 ++ print_clusters_as_json clusters profile error_msg, PStatus.ok⟩
  else ⟨chk.2, PStatus.exited 1⟩

end HCT

namespace BK

/-- disc_AWSKafka_Brokers.py: the messages table of zbx_json_output. -/
def messages (zbx_exit : Nat) : String :=
  if zbx_exit = 0 then "Métricas obtenidas con éxito."
  else if zbx_exit = 1 then "Error en la obtención de métricas."
  else if zbx_exit = 2 then "Información sobre ejecución: revisión necesaria."
  else "Mensaje no definido."

/-- disc_AWSKafka_Brokers.py zbx_json_output, the status object (the
INFO text names disc_AWSKafka_ItemsBrokers.py, as in the source). -/
def zbx_status (profile metric_type : String) (zbx_exit zbx_value : Nat) (zbx_msg : Option String) : J :=
  J.obj [("\x7b#INFO\x7d", J.str ("disc_AWSKafka_ItemsBrokers.py " ++ profile ++ " " ++ metric_type)),
         ("\x7b#MSG\x7d", J.str (pyOr zbx_msg (messages zbx_exit))),
         ("\x7b#EXIT\x7d", J.str (toString zbx_exit)),
         ("\x7b#REGISTROS\x7d", J.str (toString zbx_value))]

/-- disc_AWSKafka_Brokers.py zbx_json_output: prints the status object
wrapped in a data array, with compact separators. -/
def zbx_json_output (profile metric_type : String) (zbx_exit zbx_value : Nat) (zbx_msg : Option String) : J :=
  J.obj [("data", J.arr [zbx_status profile metric_type zbx_exit zbx_value zbx_msg])]

/-- metric_id_map.get(metric_id, metric_id). -/
def mapId (i : String) : String :=
  if i = "cpuUser" then "CpuUser"
  else if i = "kafkaDataLogsDiskUsed" then "KafkaDataLogsDiskUsed"
  else if i = "offlinePartitionsCount" then "offlinePartitionsCount"
  else i

/-- generate_metrics_json of disc_AWSKafka_Brokers.py: initialize the
three metric lists; for each returned series that is non-empty, append
its last timestamp/value pair under the mapped id (an id outside the
initialized keys raises KeyError, modelled as .error). -/
def generate_metrics_json (broker_metrics : List MetricResult) (cluster_name : String) (broker_id : Nat) (broker_name : String) : Except String BMJson := do
  let init : List (String × List Datapoint) :=
    [("CpuUser", []), ("KafkaDataLogsDiskUsed", []), ("offlinePartitionsCount", [])]
  let mets ← broker_metrics.foldlM (fun md r =>
    match r.points.getLast? with
    | none => Except.ok md
    | some p =>
      match updAssoc md (mapId r.resId) ⟨p.1, p.2⟩ with
      | some md2 => Except.ok md2
      | none => Except.error ("KeyError: " ++ mapId r.resId)) init
  Except.ok ⟨cluster_name, broker_id, broker_name, mets⟩

/-- format_broker_name: split at the dots (full_broker_name.split of
the Python source, modelled by pySplit), keep only the first two
segments joined by a dot when there are at least three; otherwise
return the name unchanged. -/
def format_broker_name (full_broker_name : String) : String :=
  let parts := pySplit full_broker_name '.'
  if 3 ≤ parts.length then String.intercalate "." (parts.take 2)
  else full_broker_name

/-- sum(data_point['Average'] for data_point in data_points). -/
def pointsSum (pts : List Datapoint) : ℚ := (pts.map (fun d => d.average)).sum

/-- The REGISTROS count of print_metrics_as_json: total number of
collected datapoints over all brokers and all metric keys. -/
def registros (all : List BMJson) : Nat :=
  (all.map (fun b => (b.metrics.map (fun kv => kv.2.length)).sum)).sum

/-- The leading status object of print_metrics_as_json. -/
def status_row (all : List BMJson) (awprofile : String) : J :=
  J.obj [("\x7b#INFO\x7d", J.str ("disc_AWSKafka_ItemsBrokers.py " ++ awprofile ++ " Kafka")),
         ("\x7b#MSG\x7d", J.str "Metricas obtenidas con exito."),
         ("\x7b#EXIT\x7d", J.str "0"),
         ("\x7b#REGISTROS\x7d", J.str (toString (registros all)))]

/-- One emitted row for a datapoint of an average metric. -/
def avgRow (awprofile cluster_name broker_name : String) (broker_id : Nat) (metric_name : String) (dp : Datapoint) : J :=
  J.obj [("\x7b#AWSPROFILE\x7d", J.str awprofile),
         ("\x7b#NAMESPACE\x7d", J.str "Kafka"),
         ("\x7b#CLUSTERNAME\x7d", J.str cluster_name),
         ("\x7b#BROKERNAME\x7d", J.str broker_name),
         ("\x7b#BROKERID\x7d", J.str (toString broker_id)),
         ("\x7b#METRICNAME\x7d", J.str metric_name),
         ("\x7b#VALUE\x7d", J.str (round2fmt dp.average)),
         ("\x7b#METRICUNIT\x7d", J.str "%"),
         ("\x7b#VALUETYPE\x7d", J.str "Average")]

/-- One emitted per-cluster offlinePartitionsCount row (no broker
fields, no unit). -/
def offRow (awprofile cluster : String) (total_value : ℚ) : J :=
  J.obj [("\x7b#AWSPROFILE\x7d", J.str awprofile),
         ("\x7b#NAMESPACE\x7d", J.str "Kafka"),
         ("\x7b#CLUSTERNAME\x7d", J.str cluster),
         ("\x7b#METRICNAME\x7d", J.str "offlinePartitionsCount"),
         ("\x7b#VALUE\x7d", J.str (round2fmt total_value)),
         ("\x7b#VALUETYPE\x7d", J.str "Sum")]

/-- Body of the per-broker loop of print_metrics_as_json: per metric key,
either accumulate offlinePartitionsCount into the per-cluster dict or
emit one row per datapoint, the broker name formatted. -/
def processBroker (awprofile : String) (acc : List J × List (String × ℚ)) (b : BMJson) : List J × List (String × ℚ) :=
  b.metrics.foldl (fun a kv =>
    if kv.1 = "offlinePartitionsCount" then
      (a.1, dictAdd a.2 b.clusterName (pointsSum kv.2))
    else
      (a.1 ++ kv.2.map (avgRow awprofile b.clusterName (format_broker_name b.brokerName) b.brokerId kv.1), a.2)) acc

/-- The two loops of print_metrics_as_json over all broker records. -/
def loopOut (all : List BMJson) (awprofile : String) : List J × List (String × ℚ) :=
  all.foldl (processBroker awprofile) ([], [])

/-- The data array of the one document print_metrics_as_json prints:
status row, then the average-metric rows, then one
offlinePartitionsCount row per accumulated cluster. -/
def dataOut (all : List BMJson) (awprofile : String) : List J :=
  status_row all awprofile :: (loopOut all awprofile).1
    ++ (loopOut all awprofile).2.map (fun kv => offRow awprofile kv.1 kv.2)

/-- The whole document print_metrics_as_json serializes. -/
def output (all : List BMJson) (awprofile : String) : J :=
  J.obj [("data", J.arr (dataOut all awprofile))]

/-- print_metrics_as_json prints once, with compact separators. -/
def print_metrics_as_json (all : List BMJson) (awprofile : String) : List Ev :=
  [Ev.out (renderC (output all awprofile))]

/-- The metric-collection loop of main: one get_broker_metrics call per
broker (the CloudWatch response to each call is supplied by the
environment, in order), then generate_metrics_json; an exception aborts
the loop. -/
def collect (bs : List Broker) (rs : List (List MetricResult)) : List Ev × Except String (List BMJson) :=
  match bs with
  | [] => ([], Except.ok [])
  | b :: bs2 =>
    match generate_metrics_json (rs.headD []) b.clusterName b.brokerId b.brokerName with
    | .error e => ([Ev.aws "cloudwatch.get_metric_data"], .error e)
    | .ok j =>
      let rest := collect bs2 rs.tail
      (Ev.aws "cloudwatch.get_metric_data" :: rest.1,
       match rest.2 with
       | .ok js => .ok (j :: js)
       | .error e => .error e)

/-- The broker list after main's optional cluster-name filter (applied
only when the argument is truthy). -/
def retained (brokersEnum : List Broker) (filterArg : Option String) : List Broker :=
  if strTruthy filterArg then brokersEnum.filter (fun b => b.clusterName == filterArg.getD "")
  else brokersEnum

/-- A whole run of disc_AWSKafka_Brokers.py's main.  The tool environment
is a parameter, but main never calls check_commands, so it is unused:
the script enumerates brokers, filters when a truthy cluster name was
passed, reports exit 2 when nothing is left, and otherwise collects
metrics and prints once. -/
def run (_which : String → Bool) (brokersEnum : List Broker) (responses : List (List MetricResult)) (filterArg : Option String) (profile : String) : RunOut :=
  let brokers := retained brokersEnum filterArg
  if brokers.isEmpty then
    ⟨Ev.aws "kafka.list_clusters" ::
      [Ev.out (renderC (zbx_json_output profile "Kafka" 2 0
        (some ("No se encontraron brokers para el cluster \x27" ++ pyOptStr filterArg ++ "\x27"))))],
     PStatus.ok⟩
  else
    let col := collect brokers responses
    match col.2 with
    | .error e => ⟨Ev.aws "kafka.list_clusters" :: col.1, PStatus.raised e⟩
    | .ok all =>
      ⟨Ev.aws "kafka.list_clusters" :: col.1 ++ print_metrics_as_json all profile, PStatus.ok⟩

/-- The average-metric rows of print_metrics_as_json, in emission order:
one per datapoint of every metric entry other than
offlinePartitionsCount. -/
def avgRowsOf (awprofile : String) (all : List BMJson) : List J :=
  all.flatMap (fun b =>
    (b.metrics.filter (fun kv => !(kv.1 == "offlinePartitionsCount"))).flatMap
      (fun kv => kv.2.map (avgRow awprofile b.clusterName (format_broker_name b.brokerName) b.brokerId kv.1)))

/-- The sequence of per-cluster additions the offlinePartitionsCount
accumulator receives: one per offlinePartitionsCount entry of each
broker record, keyed by that record's cluster name. -/
def offPairs (all : List BMJson) : List (String × ℚ) :=
  all.flatMap (fun b =>
    (b.metrics.filter (fun kv => kv.1 == "offlinePartitionsCount")).map
      (fun kv => (b.clusterName, pointsSum kv.2)))

/-- The clusters that receive an offlinePartitionsCount row, in first
occurrence order. -/
def offKeys (all : List BMJson) : List String := dedupFirst ((offPairs all).map Prod.fst)

/-- The offlinePartitionsCount total one broker record contributes. -/
def offlineOf (b : BMJson) : ℚ :=
  ((b.metrics.filter (fun kv => kv.1 == "offlinePartitionsCount")).map
    (fun kv => pointsSum kv.2)).sum

/-- Number of datapoints of the average metrics (the metrics that get a
row each). -/
def avgPointCount (all : List BMJson) : Nat :=
  (all.map (fun b =>
    ((b.metrics.filter (fun kv => !(kv.1 == "offlinePartitionsCount"))).map
      (fun kv => kv.2.length)).sum)).sum

end BK

namespace IB

/-- disc_AWSKafka_ItemsBrokers.py zbx_json_output: lowercase keys, the
exit passed as a string by main, the record count as a JSON number; the
object is printed bare (no data envelope) with json.dumps' default,
spaced separators. -/
def zbx_json_output (profile metric_type zbx_msg zbx_exit : String) (zbx_value : ℤ) : J :=
  J.obj [("info", J.str ("disc_AWSKafka_ItemsBrokers.py " ++ profile ++ " " ++ metric_type)),
         ("msg", J.str zbx_msg),
         ("exit", J.str zbx_exit),
         ("registros", J.int zbx_value)]

/-- generate_metrics_json of disc_AWSKafka_ItemsBrokers.py is character
for character the same function as in disc_AWSKafka_Brokers.py. -/
def generate_metrics_json := @BK.generate_metrics_json

/-- One emitted row of print_metrics_as_json: raw broker name, and the
value serialized with Python str(). -/
def row (cluster_name broker_name : String) (broker_id : Nat) (metric_name : String) (dp : Datapoint) : J :=
  J.obj [("\x7b#NAMESPACE\x7d", J.str "Kafka"),
         ("\x7b#CLUSTERNAME\x7d", J.str cluster_name),
         ("\x7b#BROKERNAME\x7d", J.str broker_name),
         ("\x7b#BROKERID\x7d", J.str (toString broker_id)),
         ("\x7b#METRICNAME\x7d", J.str metric_name),
         ("\x7b#VALUE\x7d", J.str (pyFloatStr dp.average)),
         ("\x7b#METRICUNIT\x7d", J.str "%"),
         ("\x7b#VALUETYPE\x7d", J.str "Average")]

/-- The rows of print_metrics_as_json: one per datapoint of every metric
key of every broker — offlinePartitionsCount included, emitted per
broker like the others. -/
def rows (all : List BMJson) : List J :=
  all.flatMap (fun b => b.metrics.flatMap (fun kv => kv.2.map (row b.clusterName b.brokerName b.brokerId kv.1)))

/-- print_metrics_as_json prints the data document once, compactly. -/
def print_metrics_as_json (all : List BMJson) : List Ev :=
  [Ev.out (renderC (J.obj [("data", J.arr (rows all))]))]

/-- A whole run of disc_AWSKafka_ItemsBrokers.py's main: tool check
(exit 1 when one is missing), enumeration, per-broker collection
(identical to disc_AWSKafka_Brokers.py), the consolidated status print
with default separators, the compact data print, then the JSON and CSV
file writes.  The log path is computed but this script never writes to
it. -/
def run (which : String → Bool) (brokersEnum : List Broker) (responses : List (List MetricResult)) (profile : String) : RunOut :=
  let chk := check_commands which
  if chk.1 then
    let col := BK.collect brokersEnum responses
    match col.2 with
    | .error e => ⟨Ev.aws "kafka.list_clusters" :: col.1, PStatus.raised e⟩
    | .ok all =>
      ⟨Ev.aws "kafka.list_clusters" :: col.1
        ++ [Ev.out (renderD (zbx_json_output profile "Kafka" "Metricas obtenidas con exito." "0" (Int.ofNat (BK.registros all))))]
        ++ print_metrics_as_json all
        ++ [Ev.file ("dbs/queries/" ++ profile ++ ".Kafka.queries.json"),
            Ev.file ("dbs/csv/" ++ profile ++ ".Kafka.metrics.csv")],
       PStatus.ok⟩
  else ⟨chk.2, PStatus.exited 1⟩

end IB

/-- The per-cluster structure produced by generate_metrics_json of
disc_AWSKafka_ItemsClusters.py: only a cluster name and a Metrics dict —
no BrokerName or BrokerId key. -/
structure ICJson where
  clusterName : String
  metrics : List (String × List Datapoint)
deriving DecidableEq

namespace IC

/-- disc_AWSKafka_ItemsClusters.py: the messages table of
zbx_json_output. -/
def messages (zbx_exit : Nat) : String :=
  if zbx_exit = 0 then "Métricas obtenidas con éxito."
  else if zbx_exit = 1 then "Error en la obtención de métricas."
  else if zbx_exit = 2 then "Información sobre ejecución: revisión necesaria."
  else "Mensaje no definido."

/-- disc_AWSKafka_ItemsClusters.py zbx_json_output, the status object. -/
def zbx_status (profile metric_type : String) (zbx_exit zbx_value : Nat) (zbx_msg : Option String) : J :=
  J.obj [("\x7b#INFO\x7d", J.str ("disc_AWSKafka_ItemsClusters.py " ++ profile ++ " " ++ metric_type)),
         ("\x7b#MSG\x7d", J.str (pyOr zbx_msg (messages zbx_exit))),
         ("\x7b#EXIT\x7d", J.str (toString zbx_exit)),
         ("\x7b#REGISTROS\x7d", J.str (toString zbx_value))]

/-- disc_AWSKafka_ItemsClusters.py zbx_json_output: prints the status
object wrapped in a data array, with compact separators. -/
def zbx_json_output (profile metric_type : String) (zbx_exit zbx_value : Nat) (zbx_msg : Option String) : J :=
  J.obj [("data", J.arr [zbx_status profile metric_type zbx_exit zbx_value zbx_msg])]

/-- generate_metrics_json of disc_AWSKafka_ItemsClusters.py: a single
offlinePartitionsCount key; metric_id_map maps offlinePartitionsCount to
itself and .get(id, id) leaves every other id unchanged, so the id is
used as the key directly. -/
def generate_metrics_json (cluster_metrics : List MetricResult) (cluster_name : String) : Except String ICJson := do
  let mets ← cluster_metrics.foldlM (fun md r =>
    match r.points.getLast? with
    | none => Except.ok md
    | some p =>
      match updAssoc md r.resId ⟨p.1, p.2⟩ with
      | some md2 => Except.ok md2
      | none => Except.error ("KeyError: " ++ r.resId)) [("offlinePartitionsCount", [])]
  Except.ok ⟨cluster_name, mets⟩

/-- The REGISTROS count of print_metrics_as_json. -/
def registros (all : List ICJson) : Nat :=
  (all.map (fun c => (c.metrics.map (fun kv => kv.2.length)).sum)).sum

/-- The status row print_metrics_as_json builds (but never prints). -/
def status_row (all : List ICJson) (awprofile : String) : J :=
  J.obj [("\x7b#INFO\x7d", J.str ("disc_AWSKafka_ItemsClusters.py " ++ awprofile ++ " Kafka")),
         ("\x7b#MSG\x7d", J.str "Metricas obtenidas con exito."),
         ("\x7b#EXIT\x7d", J.str "0"),
         ("\x7b#REGISTROS\x7d", J.str (toString (registros all)))]

/-- print_metrics_as_json of disc_AWSKafka_ItemsClusters.py.  It builds
the status row, then iterates the records; the first loop iteration
evaluates the BrokerName key of a record that generate_metrics_json
built with only ClusterName and Metrics, raising KeyError before
anything is printed.  The function's only print call sits inside the
else-branch of the metric loop, which also reads the unbound name
namespace; with an empty record list the loop body never runs and
nothing is printed either.  Result: (printed lines, uncaught
exception). -/
def print_metrics_as_json (all : List ICJson) (awprofile : String) : List Ev × Option String :=
  let _formatted_lines := [status_row all awprofile]
  match all with
  | [] => ([], none)
  | _ :: _ => ([], some "KeyError: \x27BrokerName\x27")

/-- The metric-collection loop of main: one get_cluster_metrics call per
retained record, then generate_metrics_json. -/
def collect (bs : List Broker) (rs : List (List MetricResult)) : List Ev × Except String (List ICJson) :=
  match bs with
  | [] => ([], Except.ok [])
  | b :: bs2 =>
    match generate_metrics_json (rs.headD []) b.clusterName with
    | .error e => ([Ev.aws "cloudwatch.get_metric_data"], .error e)
    | .ok j =>
      let rest := collect bs2 rs.tail
      (Ev.aws "cloudwatch.get_metric_data" :: rest.1,
       match rest.2 with
       | .ok js => .ok (j :: js)
       | .error e => .error e)

/-- The record list after main's optional cluster-name filter (applied
only when the argument is truthy). -/
def retained (clustersEnum : List Broker) (filterArg : Option String) : List Broker :=
  if strTruthy filterArg then clustersEnum.filter (fun b => b.clusterName == filterArg.getD "")
  else clustersEnum

/-- A whole run of disc_AWSKafka_ItemsClusters.py's main: no tool check;
get_kafka_clusters enumerates one record per broker node; filter when a
truthy cluster name was passed; exit-2 status when nothing is left;
otherwise collect and call print_metrics_as_json, whose KeyError
propagates out of main on the non-empty path. -/
def run (clustersEnum : List Broker) (responses : List (List MetricResult)) (filterArg : Option String) (profile : String) : RunOut :=
  let clusters := retained clustersEnum filterArg
  if clusters.isEmpty then
    ⟨Ev.aws "kafka.list_clusters" ::
      [Ev.out (renderC (zbx_json_output profile "Kafka" 2 0
        (some ("No se encontraron clusters para el cluster \x27" ++ pyOptStr filterArg ++ "\x27"))))],
     PStatus.ok⟩
  else
    let col := collect clusters responses
    match col.2 with
    | .error e => ⟨Ev.aws "kafka.list_clusters" :: col.1, PStatus.raised e⟩
    | .ok all =>
      let pr := print_metrics_as_json all profile
      ⟨Ev.aws "kafka.list_clusters" :: col.1 ++ pr.1,
       match pr.2 with
       | some e => PStatus.raised e
       | none => PStatus.ok⟩

end IC

/-- A broker entry of disc_AWSKafka_hostsClusters.py's get_cluster_brokers. -/
structure HCBroker where
  brokerId : Nat
  brokerName : String
deriving DecidableEq

/-- One Timestamp/Sum datapoint of the cluster metric. -/
structure HCPoint where
  timestamp : String
  sumVal : ℚ
deriving DecidableEq

/-- The per-cluster structure produced by generate_metrics_json of
disc_AWSKafka_hostsClusters.py. -/
structure HCJson where
  clusterName : String
  brokers : List HCBroker
  offlinePartitionsCount : List HCPoint
deriving DecidableEq

/-- The environment seen for one cluster of a hostsClusters run: its
name, the ARN lookup result, the CloudWatch response, and its broker
nodes. -/
structure HCEnv where
  clusterName : String
  arn : Option String
  resp : List MetricResult
  brokers : List HCBroker

namespace HC

/-- generate_metrics_json of disc_AWSKafka_hostsClusters.py: every
returned timestamp/value pair of every result is appended to the single
OfflinePartitionsCount list (the loop runs over the whole series, not
just its last element, and never looks at the result id). -/
def generate_metrics_json (cluster_metrics : List MetricResult) (cluster_name : String) (brokers : List HCBroker) : HCJson :=
  { clusterName := cluster_name
    brokers := brokers
    offlinePartitionsCount :=
      cluster_metrics.foldl (fun acc r => acc ++ r.points.map (fun p => ⟨p.1, p.2⟩)) [] }

/-- The JSON document of one cluster record, as json.dumps sees it. -/
def hcToJ (j : HCJson) : J :=
  J.obj [("ClusterName", J.str j.clusterName),
         ("Brokers", J.arr (j.brokers.map (fun b =>
            J.obj [("BrokerID", J.int (Int.ofNat b.brokerId)),
                   ("BrokerName", J.str b.brokerName)]))),
         ("MetricsCluster", J.obj [("OfflinePartitionsCount", J.arr
            (j.offlinePartitionsCount.map (fun p =>
              J.obj [("Timestamp", J.str p.timestamp), ("Sum", J.num p.sumVal)])))])]

/-- check_commands of disc_AWSKafka_hostsClusters.py: its message carries
an accent and it also appends to the log file. -/
def check_commands_aux (which : String → Bool) (logPath : String) : List String → Bool × List Ev
  | [] => (true, [])
  | c :: cs =>
    if which c then check_commands_aux which logPath cs
    else (false, [Ev.out ("No se encontró el comando " ++ c), Ev.file logPath])

/-- check_commands over the fixed command list. -/
def check_commands (which : String → Bool) (logPath : String) : Bool × List Ev :=
  check_commands_aux which logPath ["aws", "jq"]

/-- The per-cluster loop of main: look the ARN up (another list_clusters
call); on failure print a message, log and continue; otherwise fetch the
metric, list the broker nodes, reshape and log. -/
def cluster_loop (logPath : String) : List HCEnv → List Ev × List HCJson
  | [] => ([], [])
  | e :: es =>
    let rest := cluster_loop logPath es
    match e.arn with
    | none =>
      (Ev.aws "kafka.list_clusters" ::
         Ev.out ("No se pudo obtener el ARN del clúster: " ++ e.clusterName) ::
         Ev.file logPath :: rest.1, rest.2)
    | some _ =>
      (Ev.aws "kafka.list_clusters" :: Ev.aws "cloudwatch.get_metric_data" ::
         Ev.aws "kafka.list_nodes" :: Ev.file logPath :: rest.1,
       generate_metrics_json e.resp e.clusterName e.brokers :: rest.2)

/-- The log file of a run (the date prefix of the name is abstracted). -/
def logPath : String := "logs/script_Kafka.Cluster.log"

/-- A whole run of disc_AWSKafka_hostsClusters.py's main: open the log,
check the tools (log and exit 1 on failure), enumerate cluster names,
run the per-cluster loop, print the collected structure once with
json.dumps(indent=4), then write the JSON file and the CSV file, logging
after each. -/
def run (which : String → Bool) (envs : List HCEnv) (profile : String) : RunOut :=
  let openLog := [Ev.file logPath]
  let chk := check_commands which logPath
  if chk.1 then
    let lp := cluster_loop logPath envs
    ⟨openLog ++ [Ev.aws "kafka.list_clusters"] ++ lp.1
      ++ [Ev.out (renderI 0 (J.arr (lp.2.map hcToJ)))]
      ++ [Ev.file ("dbs/queries/" ++ profile ++ ".Kafka.Cluster.queries.json"), Ev.file logPath,
          Ev.file ("dbs/csv/" ++ profile ++ ".Kafka.Cluster.metrics.csv"), Ev.file logPath],
     PStatus.ok⟩
  else ⟨openLog ++ chk.2 ++ [Ev.file logPath], PStatus.exited 1⟩

end HC

/-! ### Helper lemmas: the insertion-ordered dict built by dictAdd -/

theorem mem_insertNew (acc : List String) (a x : String) :
    x ∈ insertNew acc a ↔ x ∈ acc ∨ x = a := by
  unfold insertNew
  by_cases h : a ∈ acc
  · simp only [if_pos h]
    constructor
    · exact Or.inl
    · rintro (hx | rfl)
      · exact hx
      · exact h
  · simp [if_neg h]

theorem mem_foldl_insertNew (xs : List String) : ∀ (acc : List String) (x : String),
    x ∈ xs.foldl insertNew acc ↔ x ∈ acc ∨ x ∈ xs := by
  induction xs with
  | nil => simp
  | cons a xs ih =>
    intro acc x
    rw [List.foldl_cons, ih, mem_insertNew]
    simp only [List.mem_cons]
    tauto

theorem mem_dedupFirst (xs : List String) (x : String) : x ∈ dedupFirst xs ↔ x ∈ xs := by
  unfold dedupFirst
  rw [mem_foldl_insertNew]
  simp

theorem nodup_insertNew (acc : List String) (a : String) (h : acc.Nodup) :
    (insertNew acc a).Nodup := by
  unfold insertNew
  by_cases ha : a ∈ acc
  · simpa [ha]
  · simp [ha, List.nodup_append, h]

theorem nodup_foldl_insertNew (xs : List String) :
    ∀ acc : List String, acc.Nodup → (xs.foldl insertNew acc).Nodup := by
  induction xs with
  | nil => intro acc h; simpa
  | cons a xs ih => intro acc h; exact ih _ (nodup_insertNew acc a h)

theorem nodup_dedupFirst (xs : List String) : (dedupFirst xs).Nodup :=
  nodup_foldl_insertNew xs [] List.nodup_nil

theorem dedupFirst_append_single (xs : List String) (k : String) :
    dedupFirst (xs ++ [k]) = insertNew (dedupFirst xs) k := by
  unfold dedupFirst
  rw [List.foldl_append]
  rfl

theorem sumAt_append (ps qs : List (String × ℚ)) (k : String) :
    sumAt (ps ++ qs) k = sumAt ps k + sumAt qs k := by
  unfold sumAt
  rw [List.filter_append, List.map_append, List.sum_append]

theorem sumAt_single (k2 : String) (v : ℚ) (k : String) :
    sumAt [(k2, v)] k = if k2 = k then v else 0 := by
  by_cases h : k2 = k <;> simp [sumAt, h]

theorem sumAt_eq_zero (ps : List (String × ℚ)) (k : String)
    (h : k ∉ ps.map Prod.fst) : sumAt ps k = 0 := by
  unfold sumAt
  have hf : ps.filter (fun p => p.1 == k) = [] := by
    rw [List.filter_eq_nil_iff]
    intro p hp
    simp only [beq_iff_eq]
    intro hpk
    exact h (hpk ▸ List.mem_map_of_mem Prod.fst hp)
  rw [hf]
  rfl

theorem dictAdd_map_mem (l : List String) (f : String → ℚ) (k : String) (v : ℚ)
    (hnd : l.Nodup) (hk : k ∈ l) :
    dictAdd (l.map (fun k2 => (k2, f k2))) k v
      = l.map (fun k2 => (k2, if k2 = k then f k2 + v else f k2)) := by
  induction l with
  | nil => simp at hk
  | cons a l ih =>
    rw [List.map_cons, List.map_cons]
    by_cases hak : a = k
    · subst hak
      have hnotin : a ∉ l := (List.nodup_cons.mp hnd).1
      have htail : List.map (fun k2 => (k2, if k2 = a then f k2 + v else f k2)) l
          = List.map (fun k2 => (k2, f k2)) l := by
        apply List.map_congr_left
        intro x hx
        have hxa : ¬x = a := fun hxa => hnotin (hxa ▸ hx)
        simp [hxa]
      rw [htail]
      simp [dictAdd]
    · simp only [dictAdd, if_neg hak]
      have hk2 : k ∈ l := by
        rcases List.mem_cons.mp hk with rfl | h
        · exact absurd rfl hak
        · exact h
      rw [ih (List.nodup_cons.mp hnd).2 hk2]

theorem dictAdd_map_notmem (l : List String) (f : String → ℚ) (k : String) (v : ℚ)
    (hk : k ∉ l) :
    dictAdd (l.map (fun k2 => (k2, f k2))) k v
      = l.map (fun k2 => (k2, f k2)) ++ [(k, v)] := by
  induction l with
  | nil => rfl
  | cons a l ih =>
    have hak : ¬a = k := fun h => hk (h ▸ List.mem_cons_self a l)
    rw [List.map_cons]
    simp only [dictAdd, if_neg hak]
    rw [ih (fun h => hk (List.mem_cons_of_mem a h))]
    rfl

theorem dictAdd_canon (qs : List (String × ℚ)) (k : String) (v : ℚ) :
    dictAdd (canon qs) k v = canon (qs ++ [(k, v)]) := by
  unfold canon
  simp only [List.map_append, List.map_cons, List.map_nil]
  rw [dedupFirst_append_single]
  by_cases hk : k ∈ dedupFirst (qs.map Prod.fst)
  · rw [insertNew, if_pos hk, dictAdd_map_mem _ _ _ _ (nodup_dedupFirst _) hk]
    apply List.map_congr_left
    intro x _
    by_cases hxk : x = k
    · subst hxk
      simp [sumAt_append, sumAt_single]
    · have hkx : ¬k = x := fun h => hxk h.symm
      simp [hxk, sumAt_append, sumAt_single, hkx]
  · rw [insertNew, if_neg hk, dictAdd_map_notmem _ _ _ _ hk, List.map_append]
    congr 1
    · apply List.map_congr_left
      intro x hx
      have hxk : ¬k = x := fun h => hk (h ▸ hx)
      simp [sumAt_append, sumAt_single, hxk]
    · have h0 : sumAt qs k = 0 :=
        sumAt_eq_zero qs k (fun h => hk ((mem_dedupFirst _ _).mpr h))
      simp [sumAt_append, sumAt_single, h0]

theorem dictAddAll_canon (ps : List (String × ℚ)) :
    ∀ qs, dictAddAll (canon qs) ps = canon (qs ++ ps) := by
  induction ps with
  | nil => intro qs; simp [dictAddAll]
  | cons p ps ih =>
    intro qs
    show dictAddAll (dictAdd (canon qs) p.1 p.2) ps = _
    rw [dictAdd_canon, ih]
    simp

theorem dictAddAll_nil (ps : List (String × ℚ)) : dictAddAll [] ps = canon ps := by
  have h := dictAddAll_canon ps []
  simpa [canon, dedupFirst, sumAt] using h

theorem dictAddAll_cons (d : List (String × ℚ)) (p : String × ℚ) (ps : List (String × ℚ)) :
    dictAddAll d (p :: ps) = dictAddAll (dictAdd d p.1 p.2) ps := rfl

theorem dictAddAll_append (d : List (String × ℚ)) (ps qs : List (String × ℚ)) :
    dictAddAll (dictAddAll d ps) qs = dictAddAll d (ps ++ qs) := by
  unfold dictAddAll
  rw [List.foldl_append]

theorem sumAt_map_const_key {α : Type} (l : List α) (key : String) (g : α → ℚ) (c : String) :
    sumAt (l.map (fun x => (key, g x))) c = if key = c then (l.map g).sum else 0 := by
  unfold sumAt
  rw [List.filter_map]
  by_cases h : key = c
  · simp [h, Function.comp_def]
  · have hb : (key == c) = false := by simp [h]
    simp [h, Function.comp_def, hb]

/-! ### Helper lemmas: the two loops of disc_AWSKafka_Brokers.py's
print_metrics_as_json -/

theorem bk_foldl_metrics_aux (p cn bn : String) (bid : Nat)
    (mets : List (String × List Datapoint)) :
    ∀ acc : List J × List (String × ℚ),
    mets.foldl (fun a kv =>
      if kv.1 = "offlinePartitionsCount" then
        (a.1, dictAdd a.2 cn (BK.pointsSum kv.2))
      else
        (a.1 ++ kv.2.map (BK.avgRow p cn bn bid kv.1), a.2)) acc =
    (acc.1 ++ (mets.filter (fun kv => !(kv.1 == "offlinePartitionsCount"))).flatMap
        (fun kv => kv.2.map (BK.avgRow p cn bn bid kv.1)),
     dictAddAll acc.2 ((mets.filter (fun kv => kv.1 == "offlinePartitionsCount")).map
        (fun kv => (cn, BK.pointsSum kv.2)))) := by
  induction mets with
  | nil => intro acc; simp [dictAddAll]
  | cons kv mets ih =>
    intro acc
    rw [List.foldl_cons]
    by_cases h : kv.1 = "offlinePartitionsCount"
    · rw [if_pos h, ih]
      simp [List.filter_cons, h, dictAddAll_cons]
    · rw [if_neg h, ih]
      have hb : (kv.1 == "offlinePartitionsCount") = false := by
        simp [h]
      simp [List.filter_cons, hb, List.append_assoc]

theorem bk_processBroker_spec (p : String) (b : BMJson) (acc : List J × List (String × ℚ)) :
    BK.processBroker p acc b =
      (acc.1 ++ (b.metrics.filter (fun kv => !(kv.1 == "offlinePartitionsCount"))).flatMap
          (fun kv => kv.2.map (BK.avgRow p b.clusterName (BK.format_broker_name b.brokerName) b.brokerId kv.1)),
       dictAddAll acc.2 ((b.metrics.filter (fun kv => kv.1 == "offlinePartitionsCount")).map
          (fun kv => (b.clusterName, BK.pointsSum kv.2)))) := by
  unfold BK.processBroker
  exact bk_foldl_metrics_aux p b.clusterName (BK.format_broker_name b.brokerName) b.brokerId b.metrics acc

theorem bk_foldl_processBroker (p : String) (all : List BMJson) :
    ∀ acc : List J × List (String × ℚ),
    all.foldl (BK.processBroker p) acc
      = (acc.1 ++ BK.avgRowsOf p all, dictAddAll acc.2 (BK.offPairs all)) := by
  induction all with
  | nil => intro acc; simp [BK.avgRowsOf, BK.offPairs, dictAddAll]
  | cons b all ih =>
    intro acc
    rw [List.foldl_cons, bk_processBroker_spec, ih]
    unfold BK.avgRowsOf BK.offPairs
    rw [List.flatMap_cons, List.flatMap_cons]
    rw [dictAddAll_append]
    simp [List.append_assoc]

theorem bk_loopOut_spec (all : List BMJson) (p : String) :
    BK.loopOut all p = (BK.avgRowsOf p all, canon (BK.offPairs all)) := by
  unfold BK.loopOut
  rw [bk_foldl_processBroker]
  simp [dictAddAll_nil]

theorem bk_dataOut_spec (all : List BMJson) (p : String) :
    BK.dataOut all p
      = BK.status_row all p :: BK.avgRowsOf p all
        ++ (canon (BK.offPairs all)).map (fun kv => BK.offRow p kv.1 kv.2) := by
  unfold BK.dataOut
  rw [bk_loopOut_spec]

theorem bk_sumAt_offPairs (all : List BMJson) (c : String) :
    sumAt (BK.offPairs all) c
      = ((all.filter (fun b => b.clusterName == c)).map BK.offlineOf).sum := by
  induction all with
  | nil => rfl
  | cons b all ih =>
    unfold BK.offPairs at ih ⊢
    rw [List.flatMap_cons, sumAt_append, ih]
    rw [sumAt_map_const_key (b.metrics.filter (fun kv => kv.1 == "offlinePartitionsCount"))
          b.clusterName (fun kv => BK.pointsSum kv.2) c]
    rw [List.filter_cons]
    by_cases h : b.clusterName = c
    · have hb : (b.clusterName == c) = true := by simp [h]
      simp [h, hb, BK.offlineOf]
    · have hb : (b.clusterName == c) = false := by simp [h]
      simp [h, hb]

theorem bk_avgRowsOf_length (p : String) (all : List BMJson) :
    (BK.avgRowsOf p all).length = BK.avgPointCount all := by
  unfold BK.avgRowsOf BK.avgPointCount
  rw [List.length_flatMap]
  congr 1
  apply List.map_congr_left
  intro b _
  simp [List.length_flatMap, Function.comp_def]

theorem bk_dataOut_length (all : List BMJson) (p : String) :
    (BK.dataOut all p).length = 1 + BK.avgPointCount all + (BK.offKeys all).length := by
  rw [bk_dataOut_spec]
  simp only [List.length_cons, List.length_append, List.length_map,
    bk_avgRowsOf_length, canon, BK.offKeys]
  omega

/-! ### Helper lemmas: field lookups on the emitted row shapes -/

theorem lookupStr_avgRow_metricname (p cn bn : String) (bid : Nat) (mn : String) (dp : Datapoint) :
    lookupStr (BK.avgRow p cn bn bid mn dp) "\x7b#METRICNAME\x7d" = some mn := rfl

theorem lookupStr_avgRow_value (p cn bn : String) (bid : Nat) (mn : String) (dp : Datapoint) :
    lookupStr (BK.avgRow p cn bn bid mn dp) "\x7b#VALUE\x7d" = some (round2fmt dp.average) := rfl

theorem lookupStr_avgRow_valuetype (p cn bn : String) (bid : Nat) (mn : String) (dp : Datapoint) :
    lookupStr (BK.avgRow p cn bn bid mn dp) "\x7b#VALUETYPE\x7d" = some "Average" := rfl

theorem lookupStr_offRow_metricname (p c : String) (tv : ℚ) :
    lookupStr (BK.offRow p c tv) "\x7b#METRICNAME\x7d" = some "offlinePartitionsCount" := rfl

theorem lookupStr_offRow_brokerid (p c : String) (tv : ℚ) :
    lookupStr (BK.offRow p c tv) "\x7b#BROKERID\x7d" = none := rfl

theorem lookupStr_offRow_valuetype (p c : String) (tv : ℚ) :
    lookupStr (BK.offRow p c tv) "\x7b#VALUETYPE\x7d" = some "Sum" := rfl

theorem lookupStr_offRow_value (p c : String) (tv : ℚ) :
    lookupStr (BK.offRow p c tv) "\x7b#VALUE\x7d" = some (round2fmt tv) := rfl

theorem lookupStr_offRow_clustername (p c : String) (tv : ℚ) :
    lookupStr (BK.offRow p c tv) "\x7b#CLUSTERNAME\x7d" = some c := rfl

theorem lookupStr_status_row_metricname (all : List BMJson) (p : String) :
    lookupStr (BK.status_row all p) "\x7b#METRICNAME\x7d" = none := rfl

theorem lookupStr_status_row_registros (all : List BMJson) (p : String) :
    lookupStr (BK.status_row all p) "\x7b#REGISTROS\x7d" = some (toString (BK.registros all)) := rfl

theorem lookupStr_status_row_exit (all : List BMJson) (p : String) :
    lookupStr (BK.status_row all p) "\x7b#EXIT\x7d" = some "0" := rfl

theorem lookupStr_status_row_valuetype (all : List BMJson) (p : String) :
    lookupStr (BK.status_row all p) "\x7b#VALUETYPE\x7d" = none := rfl

theorem lookupStr_hct_zbx_exit (p : String) (e v : Nat) (m : Option String) :
    lookupStr (HCT.zbx_json_output p e v m) "\x7b#EXIT\x7d" = some (toString e) := rfl

theorem lookupStr_hct_zbx_registros (p : String) (e v : Nat) (m : Option String) :
    lookupStr (HCT.zbx_json_output p e v m) "\x7b#REGISTROS\x7d" = some (toString v) := rfl

theorem lookupStr_hct_zbx_msg (p : String) (e v : Nat) (m : Option String) :
    lookupStr (HCT.zbx_json_output p e v m) "\x7b#MSG\x7d" = some (pyOr m (HCT.messages e)) := rfl

theorem lookupStr_bk_zbx_exit (p mt : String) (e v : Nat) (m : Option String) :
    lookupStr (BK.zbx_status p mt e v m) "\x7b#EXIT\x7d" = some (toString e) := rfl

theorem lookupStr_bk_zbx_msg (p mt : String) (e v : Nat) (m : Option String) :
    lookupStr (BK.zbx_status p mt e v m) "\x7b#MSG\x7d" = some (pyOr m (BK.messages e)) := rfl

theorem lookupStr_ic_zbx_exit (p mt : String) (e v : Nat) (m : Option String) :
    lookupStr (IC.zbx_status p mt e v m) "\x7b#EXIT\x7d" = some (toString e) := rfl

theorem lookupStr_ic_zbx_msg (p mt : String) (e v : Nat) (m : Option String) :
    lookupStr (IC.zbx_status p mt e v m) "\x7b#MSG\x7d" = some (pyOr m (IC.messages e)) := rfl

theorem lookupStr_ib_row_value (cn bn : String) (bid : Nat) (mn : String) (dp : Datapoint) :
    lookupStr (IB.row cn bn bid mn dp) "\x7b#VALUE\x7d" = some (pyFloatStr dp.average) := rfl

theorem lookupStr_ib_row_valuetype (cn bn : String) (bid : Nat) (mn : String) (dp : Datapoint) :
    lookupStr (IB.row cn bn bid mn dp) "\x7b#VALUETYPE\x7d" = some "Average" := rfl

theorem lookupStr_ib_row_metricname (cn bn : String) (bid : Nat) (mn : String) (dp : Datapoint) :
    lookupStr (IB.row cn bn bid mn dp) "\x7b#METRICNAME\x7d" = some mn := rfl

/-! ### Helper lemmas: the fixed-two-decimal format -/

theorem digitChar_isDigit (k : Nat) (h : k < 10) : (Nat.digitChar k).isDigit = true := by
  interval_cases k <;> decide

theorem twoDecCheck_round2fmt (q : ℚ) : twoDecCheck (round2fmt q) = true := by
  unfold round2fmt twoDecCheck pad2
  have h1 : (roundHalfEvenCents q).natAbs % 100 / 10 < 10 := by omega
  have h2 : (roundHalfEvenCents q).natAbs % 100 % 10 < 10 := by omega
  simp only [String.data_append, List.reverse_append]
  simp [digitChar_isDigit _ h1, digitChar_isDigit _ h2]

/-! ### Helper lemmas: printed output of the collection loops -/

theorem bk_collect_outs (bs : List Broker) :
    ∀ rs : List (List MetricResult), (BK.collect bs rs).1.filterMap outProj = [] := by
  induction bs with
  | nil => intro rs; rfl
  | cons b bs ih =>
    intro rs
    unfold BK.collect
    cases hg : BK.generate_metrics_json (rs.headD []) b.clusterName b.brokerId b.brokerName with
    | error e => simp [outProj]
    | ok j => simp [outProj, ih rs.tail]

theorem ic_collect_outs (bs : List Broker) :
    ∀ rs : List (List MetricResult), (IC.collect bs rs).1.filterMap outProj = [] := by
  induction bs with
  | nil => intro rs; rfl
  | cons b bs ih =>
    intro rs
    unfold IC.collect
    cases hg : IC.generate_metrics_json (rs.headD []) b.clusterName with
    | error e => simp [outProj]
    | ok j => simp [outProj, ih rs.tail]

theorem hc_cluster_loop_ok (lp : String) (envs : List HCEnv)
    (h : ∀ e ∈ envs, e.arn.isSome = true) :
    (HC.cluster_loop lp envs).1.filterMap outProj = []
    ∧ (HC.cluster_loop lp envs).2.length = envs.length := by
  induction envs with
  | nil => exact ⟨rfl, rfl⟩
  | cons e envs ih =>
    have he : e.arn.isSome = true := h e (List.mem_cons_self e envs)
    obtain ⟨a, ha⟩ := Option.isSome_iff_exists.mp he
    have ihr := ih (fun x hx => h x (List.mem_cons_of_mem e hx))
    unfold HC.cluster_loop
    rw [ha]
    simpa [outProj] using ihr

theorem check_commands_ok (which : String → Bool)
    (h1 : which "aws" = true) (h2 : which "jq" = true) :
    check_commands which = (true, []) := by
  simp [check_commands, check_commands_aux, h1, h2]

theorem check_commands_aws_missing (which : String → Bool) (h : which "aws" = false) :
    check_commands which = (false, [Ev.out "No se encontro el comando aws"]) := by
  simp [check_commands, check_commands_aux, h]

theorem check_commands_jq_missing (which : String → Bool)
    (h1 : which "aws" = true) (h2 : which "jq" = false) :
    check_commands which = (false, [Ev.out "No se encontro el comando jq"]) := by
  simp [check_commands, check_commands_aux, h1, h2]

theorem hc_check_commands_ok (which : String → Bool) (lp : String)
    (h1 : which "aws" = true) (h2 : which "jq" = true) :
    HC.check_commands which lp = (true, []) := by
  simp [HC.check_commands, HC.check_commands_aux, h1, h2]

theorem hc_check_commands_aws_missing (which : String → Bool) (lp : String)
    (h : which "aws" = false) :
    HC.check_commands which lp
      = (false, [Ev.out "No se encontró el comando aws", Ev.file lp]) := by
  simp [HC.check_commands, HC.check_commands_aux, h]

theorem hc_check_commands_jq_missing (which : String → Bool) (lp : String)
    (h1 : which "aws" = true) (h2 : which "jq" = false) :
    HC.check_commands which lp
      = (false, [Ev.out "No se encontró el comando jq", Ev.file lp]) := by
  simp [HC.check_commands, HC.check_commands_aux, h1, h2]

theorem renderI_arr_cons (x : J) (xs : List J) :
    ∃ r, renderI 0 (J.arr (x :: xs)) = "[\n" ++ r := by
  refine ⟨renderIList 4 (x :: xs) ++ ("\n" ++ (nspaces 0 ++ "]")), ?_⟩
  show "[\n" ++ renderIList (0 + 4) (x :: xs) ++ "\n" ++ nspaces 0 ++ "]" = _
  simp [String.append_assoc]

/-! ### Helper lemmas: the offlinePartitionsCount rows of
disc_AWSKafka_Brokers.py -/

theorem bk_mem_avgRowsOf (p : String) (all : List BMJson) (r : J)
    (h : r ∈ BK.avgRowsOf p all) :
    ∃ b ∈ all, ∃ kv ∈ b.metrics, (kv.1 == "offlinePartitionsCount") = false ∧
      ∃ dp ∈ kv.2,
        r = BK.avgRow p b.clusterName (BK.format_broker_name b.brokerName) b.brokerId kv.1 dp := by
  unfold BK.avgRowsOf at h
  simp only [List.mem_flatMap, List.mem_filter, List.mem_map] at h
  obtain ⟨b, hb, kv, ⟨hkv, hoff⟩, dp, hdp, hr⟩ := h
  exact ⟨b, hb, kv, hkv, by simpa using hoff, dp, hdp, hr.symm⟩

theorem bk_avgRows_filter_off (p : String) (all : List BMJson) :
    (BK.avgRowsOf p all).filter
      (fun r => lookupStr r "\x7b#METRICNAME\x7d" == some "offlinePartitionsCount") = [] := by
  rw [List.filter_eq_nil_iff]
  intro r hr
  obtain ⟨b, _, kv, _, hoff, dp, _, rfl⟩ := bk_mem_avgRowsOf p all r hr
  simp [lookupStr_avgRow_metricname, hoff]

theorem bk_dataOut_filter_off (all : List BMJson) (p : String) :
    (BK.dataOut all p).filter
      (fun r => lookupStr r "\x7b#METRICNAME\x7d" == some "offlinePartitionsCount")
      = (canon (BK.offPairs all)).map (fun kv => BK.offRow p kv.1 kv.2) := by
  rw [bk_dataOut_spec, List.filter_append, List.filter_cons]
  have hs : (lookupStr (BK.status_row all p) "\x7b#METRICNAME\x7d"
      == some "offlinePartitionsCount") = false := by
    rw [lookupStr_status_row_metricname]
    rfl
  have hoff : ∀ r ∈ (canon (BK.offPairs all)).map (fun kv => BK.offRow p kv.1 kv.2),
      (lookupStr r "\x7b#METRICNAME\x7d" == some "offlinePartitionsCount") = true := by
    intro r hr
    obtain ⟨kv, _, rfl⟩ := List.mem_map.mp hr
    rw [lookupStr_offRow_metricname]
    rfl
  simp only [hs, Bool.false_eq_true, if_false,
    bk_avgRows_filter_off, List.filter_eq_self.mpr hoff, List.nil_append]

/-! ### Helper lemmas: key preservation in the reshaping folds -/

theorem updAssoc_keys (m : List (String × List Datapoint)) :
    ∀ (k : String) (d : Datapoint) (m2 : List (String × List Datapoint)),
    updAssoc m k d = some m2 → m2.map Prod.fst = m.map Prod.fst := by
  induction m with
  | nil =>
    intro k d m2 h
    simp [updAssoc] at h
  | cons kv rest ih =>
    intro k d m2 h
    unfold updAssoc at h
    by_cases hk : kv.1 = k
    · rw [if_pos hk] at h
      obtain rfl := (Option.some.injEq _ _).mp h.symm
      simp
    · rw [if_neg hk] at h
      cases hrec : updAssoc rest k d with
      | none => rw [hrec] at h; cases h
      | some rest2 =>
        rw [hrec] at h
        obtain rfl := (Option.some.injEq _ _).mp h.symm
        simp [ih k d rest2 hrec]

theorem except_bind_err {α β : Type} (e : String) (f : α → Except String β) :
    (Except.error e >>= f) = Except.error e := rfl

theorem ic_foldlM_keys (rs : List MetricResult) :
    ∀ (md mets : List (String × List Datapoint)),
    rs.foldlM (fun md r =>
      match r.points.getLast? with
      | none => Except.ok md
      | some p =>
        match updAssoc md r.resId ⟨p.1, p.2⟩ with
        | some md2 => Except.ok md2
        | none => Except.error ("KeyError: " ++ r.resId)) md
      = (Except.ok mets : Except String (List (String × List Datapoint))) →
    mets.map Prod.fst = md.map Prod.fst := by
  induction rs with
  | nil =>
    intro md mets h
    cases h
    rfl
  | cons r rs ih =>
    intro md mets h
    rw [List.foldlM_cons] at h
    cases hlast : r.points.getLast? with
    | none =>
      simp only [hlast] at h
      exact ih md mets h
    | some p =>
      simp only [hlast] at h
      cases hupd : updAssoc md r.resId ⟨p.1, p.2⟩ with
      | none =>
        simp only [hupd] at h
        rw [except_bind_err] at h
        cases h
      | some md2 =>
        simp only [hupd] at h
        rw [ih md2 mets h]
        exact updAssoc_keys md r.resId ⟨p.1, p.2⟩ md2 hupd

/-! ### Helper lemmas: the reshaping of one CloudWatch response -/

theorem hc_generate_points (rs : List MetricResult) (c : String) (bs : List HCBroker) :
    (HC.generate_metrics_json rs c bs).offlinePartitionsCount
      = (rs.flatMap (fun r => r.points)).map (fun pr => (⟨pr.1, pr.2⟩ : HCPoint)) := by
  unfold HC.generate_metrics_json
  suffices h : ∀ acc, rs.foldl (fun acc r => acc ++ r.points.map (fun p => (⟨p.1, p.2⟩ : HCPoint))) acc
      = acc ++ (rs.flatMap (fun r => r.points)).map (fun pr => (⟨pr.1, pr.2⟩ : HCPoint)) by
    simpa using h []
  induction rs with
  | nil => intro acc; simp
  | cons r rs ih =>
    intro acc
    rw [List.foldl_cons, ih, List.flatMap_cons]
    simp [List.append_assoc]

theorem hct_clusters_data_pos (l : List String) (p : String) (m : Option String)
    (h : l ≠ []) :
    HCT.clusters_data (some l) p m
      = HCT.zbx_json_output p 0 l.length m ::
        l.map (fun c =>
          J.obj [("\x7b#AWSPROFILE\x7d", J.str p),
                 ("\x7b#NAMESPACE\x7d", J.str "AWS/Kafka"),
                 ("\x7b#CLUSTERNAME\x7d", J.str c)]) := by
  have ht : HCT.truthy (some l) = true := by
    cases l with
    | nil => exact absurd rfl h
    | cons a l => simp [HCT.truthy]
  unfold HCT.clusters_data
  rw [ht]
  simp

theorem string_append_ne_empty (a b : String) (h : a ≠ "") : a ++ b ≠ "" := by
  intro he
  apply h
  have hl := congrArg String.length he
  rw [String.length_append] at hl
  have h0 : a.length = 0 := by
    have : ("" : String).length = 0 := rfl
    omega
  cases a with
  | mk data =>
    cases data with
    | nil => rfl
    | cons c cs => simp [String.length] at h0

theorem qfloor_intCast (n : ℤ) : qfloor (n : ℚ) = n := by
  unfold qfloor
  rw [Rat.num_intCast, Rat.den_intCast]
  have h1 : ((1 : ℕ) : ℤ) = 1 := rfl
  rw [h1]
  exact Int.fdiv_one n

theorem roundHalfEvenCents_eq (q : ℚ) (n : ℤ) (h : 100 * q = (n : ℚ)) :
    roundHalfEvenCents q = n := by
  simp only [roundHalfEvenCents]
  rw [h, qfloor_intCast, sub_self]
  rw [if_pos (by norm_num)]

theorem round2fmt_seven : round2fmt 7 = "7.00" := by
  have hc : roundHalfEvenCents 7 = 700 := roundHalfEvenCents_eq 7 700 (by norm_num)
  unfold round2fmt
  rw [hc]
  rfl

theorem bk_retained_nil (bs : List Broker) (s : String) (hs : s ≠ "")
    (h : ∀ b ∈ bs, b.clusterName ≠ s) : BK.retained bs (some s) = [] := by
  unfold BK.retained
  have ht : strTruthy (some s) = true := by simp [strTruthy, hs]
  rw [ht, if_pos rfl, List.filter_eq_nil_iff]
  intro b hb
  simp [h b hb]

theorem ic_retained_nil (bs : List Broker) (s : String) (hs : s ≠ "")
    (h : ∀ b ∈ bs, b.clusterName ≠ s) : IC.retained bs (some s) = [] := by
  unfold IC.retained
  have ht : strTruthy (some s) = true := by simp [strTruthy, hs]
  rw [ht, if_pos rfl, List.filter_eq_nil_iff]
  intro b hb
  simp [h b hb]

theorem bk_run_empty (which : String → Bool) (bs : List Broker)
    (rs : List (List MetricResult)) (f : Option String) (p : String)
    (h : BK.retained bs f = []) :
    BK.run which bs rs f p
      = ⟨[Ev.aws "kafka.list_clusters",
          Ev.out (renderC (BK.zbx_json_output p "Kafka" 2 0
            (some ("No se encontraron brokers para el cluster \x27" ++ pyOptStr f ++ "\x27"))))],
         PStatus.ok⟩ := by
  unfold BK.run
  rw [h]
  rfl

theorem ic_run_empty (ce : List Broker) (rs : List (List MetricResult))
    (f : Option String) (p : String) (h : IC.retained ce f = []) :
    IC.run ce rs f p
      = ⟨[Ev.aws "kafka.list_clusters",
          Ev.out (renderC (IC.zbx_json_output p "Kafka" 2 0
            (some ("No se encontraron clusters para el cluster \x27" ++ pyOptStr f ++ "\x27"))))],
         PStatus.ok⟩ := by
  unfold IC.run
  rw [h]
  rfl

theorem ic_print_outs (all : List ICJson) (p : String) :
    (IC.print_metrics_as_json all p).1 = [] := by
  cases all <;> rfl

/-! ### The claims -/

/-- Claim C7: for every input string with at least three dot-separated
segments, format_broker_name returns the first two segments joined by a
dot; for every input with fewer than three segments it returns the input
unchanged. -/
theorem C7_format_broker_name :
    (∀ (s a b c : String) (rest : List String),
       pySplit s '.' = a :: b :: c :: rest →
       BK.format_broker_name s = a ++ "." ++ b)
    ∧ (∀ s : String, (pySplit s '.').length < 3 → BK.format_broker_name s = s) := by
  constructor
  · intro s a b c rest h
    unfold BK.format_broker_name
    rw [h]
    have hlen : 3 ≤ (a :: b :: c :: rest).length := by
      simp only [List.length_cons]
      omega
    rw [if_pos hlen]
    show String.intercalate "." [a, b] = a ++ "." ++ b
    simp [String.intercalate, String.intercalate.go]
  · intro s h
    unfold BK.format_broker_name
    rw [if_neg (by omega)]

/-- Witness for C7 at the spec's example: the amazonaws endpoint is cut
to its first two segments, and a two-segment name is unchanged. -/
theorem C7_format_broker_name_witness :
    BK.format_broker_name "b-1.clustername.abc123.kafka.us-east-1.amazonaws.com"
      = "b-1.clustername"
    ∧ BK.format_broker_name "a.b" = "a.b" := by
  constructor
  · have h := C7_format_broker_name.1
      "b-1.clustername.abc123.kafka.us-east-1.amazonaws.com"
      "b-1" "clustername" "abc123" ["kafka", "us-east-1", "amazonaws", "com"]
      (by decide)
    exact h.trans (by decide)
  · exact C7_format_broker_name.2 "a.b" (by decide)

/-- Claim C10: when at least one cluster survives filtering,
disc_AWSKafka_ItemsClusters.py's print_metrics_as_json writes nothing to
standard output, and every metrics dict generate_metrics_json builds has
only the key offlinePartitionsCount (so the else-branch holding the only
print call — and the unbound name namespace — is unreachable). -/
theorem C10_itemsclusters_print_silent :
    (∀ (all : List ICJson) (p : String), all ≠ [] →
       (IC.print_metrics_as_json all p).1 = [])
    ∧ (∀ (rs : List MetricResult) (c : String) (j : ICJson),
        IC.generate_metrics_json rs c = Except.ok j →
        j.metrics.map Prod.fst = ["offlinePartitionsCount"]) := by
  constructor
  · intro all p h
    unfold IC.print_metrics_as_json
    cases all with
    | nil => exact absurd rfl h
    | cons a l => rfl
  · intro rs c j h
    unfold IC.generate_metrics_json at h
    cases hf : rs.foldlM (fun md r =>
        match r.points.getLast? with
        | none => Except.ok md
        | some p =>
          match updAssoc md r.resId ⟨p.1, p.2⟩ with
          | some md2 => Except.ok md2
          | none => Except.error ("KeyError: " ++ r.resId)) [("offlinePartitionsCount", [])] with
    | error e =>
      rw [hf, except_bind_err] at h
      cases h
    | ok mets =>
      rw [hf] at h
      have hj : j = ⟨c, mets⟩ := by
        cases h
        rfl
      subst hj
      simpa using ic_foldlM_keys rs [("offlinePartitionsCount", [])] mets hf

/-- Witness for C10: a concrete one-cluster run — the reshaped record
has only the offlinePartitionsCount key and the print step emits
nothing. -/
theorem C10_itemsclusters_print_silent_witness :
    (IC.print_metrics_as_json [⟨"c1", [("offlinePartitionsCount", [⟨"t", 1⟩])]⟩] "p").1 = []
    ∧ (⟨"c1", [("offlinePartitionsCount", [⟨"t", (1 : ℚ)⟩])]⟩ : ICJson).metrics.map Prod.fst
        = ["offlinePartitionsCount"] := by
  constructor
  · exact C10_itemsclusters_print_silent.1
      [⟨"c1", [("offlinePartitionsCount", [⟨"t", 1⟩])]⟩] "p" (by decide)
  · exact C10_itemsclusters_print_silent.2
      [⟨"offlinePartitionsCount", [("t", 1)]⟩] "c1"
      ⟨"c1", [("offlinePartitionsCount", [⟨"t", 1⟩])]⟩ rfl

/-- Counterexample to C6 as stated: disc_AWSKafka_hostsClusters.py's
generate_metrics_json, fed one result carrying two timestamp/value
pairs, records both pairs — not only the last one. -/
theorem C6_counterexample :
    (HC.generate_metrics_json [⟨"offlinePartitionsCount", [("t1", 1), ("t2", 2)]⟩]
        "c" []).offlinePartitionsCount
      = [⟨"t1", 1⟩, ⟨"t2", 2⟩] := rfl

/-- Claim C6 (amended): disc_AWSKafka_Brokers.py (and the byte-identical
reshaping of disc_AWSKafka_ItemsBrokers.py) and
disc_AWSKafka_ItemsClusters.py record exactly one pair per metric id —
the last element of the returned series — and none when the series is
empty; disc_AWSKafka_hostsClusters.py instead records every returned
pair of every result. -/
theorem C6_reshaping_last_element :
    (∀ (r1 r2 r3 : MetricResult) (c : String) (bid : Nat) (bn : String),
       r1.resId = "cpuUser" → r2.resId = "kafkaDataLogsDiskUsed" →
       r3.resId = "offlinePartitionsCount" →
       BK.generate_metrics_json [r1, r2, r3] c bid bn
         = Except.ok ⟨c, bid, bn,
             [("CpuUser", lastDP r1), ("KafkaDataLogsDiskUsed", lastDP r2),
              ("offlinePartitionsCount", lastDP r3)]⟩)
    ∧ (∀ (r : MetricResult) (c : String), r.resId = "offlinePartitionsCount" →
        IC.generate_metrics_json [r] c
          = Except.ok ⟨c, [("offlinePartitionsCount", lastDP r)]⟩)
    ∧ (∀ (rs : List MetricResult) (c : String) (bs : List HCBroker),
        (HC.generate_metrics_json rs c bs).offlinePartitionsCount
          = (rs.flatMap (fun r => r.points)).map (fun pr => (⟨pr.1, pr.2⟩ : HCPoint))) := by
  refine ⟨?_, ?_, ?_⟩
  · intro r1 r2 r3 c bid bn h1 h2 h3
    obtain ⟨id1, pts1⟩ := r1
    obtain ⟨id2, pts2⟩ := r2
    obtain ⟨id3, pts3⟩ := r3
    have h1b : id1 = "cpuUser" := h1
    have h2b : id2 = "kafkaDataLogsDiskUsed" := h2
    have h3b : id3 = "offlinePartitionsCount" := h3
    subst h1b; subst h2b; subst h3b
    unfold BK.generate_metrics_json lastDP
    simp only [List.foldlM_cons, List.foldlM_nil]
    cases hg1 : pts1.getLast? <;> cases hg2 : pts2.getLast? <;>
      cases hg3 : pts3.getLast? <;> rfl
  · intro r c h
    obtain ⟨id1, pts1⟩ := r
    have h1b : id1 = "offlinePartitionsCount" := h
    subst h1b
    unfold IC.generate_metrics_json lastDP
    simp only [List.foldlM_cons, List.foldlM_nil]
    cases hg : pts1.getLast? <;> rfl
  · intro rs c bs
    exact hc_generate_points rs c bs

/-- Witness for C6 (amended) at a concrete response: a two-point
CpuUser series keeps only its last pair, an empty disk series keeps
nothing. -/
theorem C6_reshaping_last_element_witness :
    BK.generate_metrics_json
      [⟨"cpuUser", [("t0", 5), ("t1", 7)]⟩, ⟨"kafkaDataLogsDiskUsed", []⟩,
       ⟨"offlinePartitionsCount", [("t2", 1)]⟩] "c" 1 "b"
      = Except.ok ⟨"c", 1, "b",
          [("CpuUser", [⟨"t1", 7⟩]), ("KafkaDataLogsDiskUsed", []),
           ("offlinePartitionsCount", [⟨"t2", 1⟩])]⟩ := by
  exact C6_reshaping_last_element.1
    ⟨"cpuUser", [("t0", 5), ("t1", 7)]⟩ ⟨"kafkaDataLogsDiskUsed", []⟩
    ⟨"offlinePartitionsCount", [("t2", 1)]⟩ "c" 1 "b" rfl rfl rfl

/-- Claim C4: in disc_AWSKafka_Brokers.py's print_metrics_as_json, the
emitted offlinePartitionsCount rows are exactly one per distinct cluster
name (in first-occurrence order), each carrying the client-side sum of
the offlinePartitionsCount datapoints over that cluster's broker
records; and no row with metric name offlinePartitionsCount carries a
broker id (the metric is never emitted per broker, only as a Sum row). -/
theorem C4_offline_summed_per_cluster (all : List BMJson) (p : String) :
    (BK.dataOut all p).filter
        (fun r => lookupStr r "\x7b#METRICNAME\x7d" == some "offlinePartitionsCount")
      = (BK.offKeys all).map (fun c =>
          BK.offRow p c (((all.filter (fun b => b.clusterName == c)).map BK.offlineOf).sum))
    ∧ (BK.offKeys all).Nodup
    ∧ ∀ r ∈ BK.dataOut all p,
        lookupStr r "\x7b#METRICNAME\x7d" = some "offlinePartitionsCount" →
        lookupStr r "\x7b#BROKERID\x7d" = none
        ∧ lookupStr r "\x7b#VALUETYPE\x7d" = some "Sum" := by
  refine ⟨?_, nodup_dedupFirst _, ?_⟩
  · rw [bk_dataOut_filter_off]
    unfold canon
    rw [List.map_map]
    apply List.map_congr_left
    intro k _
    simp only [Function.comp_apply]
    rw [bk_sumAt_offPairs]
  · intro r hr hmn
    rw [bk_dataOut_spec] at hr
    rcases List.mem_append.mp hr with hr1 | hr2
    · rcases List.mem_cons.mp hr1 with rfl | hr1b
      · rw [lookupStr_status_row_metricname] at hmn
        cases hmn
      · obtain ⟨b, _, kv, _, hoff, dp, _, rfl⟩ := bk_mem_avgRowsOf p all r hr1b
        rw [lookupStr_avgRow_metricname] at hmn
        have hk : kv.1 = "offlinePartitionsCount" := Option.some.inj hmn
        simp [hk] at hoff
    · obtain ⟨kv, _, rfl⟩ := List.mem_map.mp hr2
      exact ⟨lookupStr_offRow_brokerid p kv.1 kv.2, lookupStr_offRow_valuetype p kv.1 kv.2⟩

/-- Witness-style instantiation for C4: two brokers of the same cluster,
one offline datapoint each (1 and 2), produce exactly one
offlinePartitionsCount row for the cluster, carrying the sum 3. -/
theorem C4_offline_summed_per_cluster_witness :
    (BK.dataOut
        [⟨"c", 1, "b1", [("CpuUser", []), ("KafkaDataLogsDiskUsed", []),
            ("offlinePartitionsCount", [⟨"t", 1⟩])]⟩,
         ⟨"c", 2, "b2", [("CpuUser", []), ("KafkaDataLogsDiskUsed", []),
            ("offlinePartitionsCount", [⟨"t", 2⟩])]⟩] "p").filter
        (fun r => lookupStr r "\x7b#METRICNAME\x7d" == some "offlinePartitionsCount")
      = [BK.offRow "p" "c" 3] := by
  have h := (C4_offline_summed_per_cluster
      [⟨"c", 1, "b1", [("CpuUser", []), ("KafkaDataLogsDiskUsed", []),
          ("offlinePartitionsCount", [⟨"t", 1⟩])]⟩,
       ⟨"c", 2, "b2", [("CpuUser", []), ("KafkaDataLogsDiskUsed", []),
          ("offlinePartitionsCount", [⟨"t", 2⟩])]⟩] "p").1
  refine h.trans ?_
  have hk : BK.offKeys
      [⟨"c", 1, "b1", [("CpuUser", []), ("KafkaDataLogsDiskUsed", []),
          ("offlinePartitionsCount", [⟨"t", 1⟩])]⟩,
       ⟨"c", 2, "b2", [("CpuUser", []), ("KafkaDataLogsDiskUsed", []),
          ("offlinePartitionsCount", [⟨"t", 2⟩])]⟩] = ["c"] := rfl
  rw [hk]
  simp only [List.map_cons, List.map_nil]
  congr 1
  congr 1
  unfold BK.offlineOf BK.pointsSum
  have e0 : List.filter (fun b => b.clusterName == "c")
      [(⟨"c", 1, "b1", [("CpuUser", []), ("KafkaDataLogsDiskUsed", []),
          ("offlinePartitionsCount", [⟨"t", 1⟩])]⟩ : BMJson),
       ⟨"c", 2, "b2", [("CpuUser", []), ("KafkaDataLogsDiskUsed", []),
          ("offlinePartitionsCount", [⟨"t", 2⟩])]⟩]
      = [(⟨"c", 1, "b1", [("CpuUser", []), ("KafkaDataLogsDiskUsed", []),
          ("offlinePartitionsCount", [⟨"t", 1⟩])]⟩ : BMJson),
         ⟨"c", 2, "b2", [("CpuUser", []), ("KafkaDataLogsDiskUsed", []),
          ("offlinePartitionsCount", [⟨"t", 2⟩])]⟩] := rfl
  rw [e0]
  simp only [List.map_cons, List.map_nil, List.sum_cons, List.sum_nil]
  have e1 : List.filter (fun kv => kv.1 == "offlinePartitionsCount")
      [("CpuUser", ([] : List Datapoint)), ("KafkaDataLogsDiskUsed", []),
       ("offlinePartitionsCount", [⟨"t", (1 : ℚ)⟩])]
      = [("offlinePartitionsCount", [⟨"t", (1 : ℚ)⟩])] := rfl
  have e2 : List.filter (fun kv => kv.1 == "offlinePartitionsCount")
      [("CpuUser", ([] : List Datapoint)), ("KafkaDataLogsDiskUsed", []),
       ("offlinePartitionsCount", [⟨"t", (2 : ℚ)⟩])]
      = [("offlinePartitionsCount", [⟨"t", (2 : ℚ)⟩])] := rfl
  rw [e1, e2]
  simp only [List.map_cons, List.map_nil, List.sum_cons, List.sum_nil]
  norm_num

/-- Counterexample to C5 as stated: disc_AWSKafka_ItemsBrokers.py emits
an average-type row whose VALUE is Python str() of the raw value — for
the value 7 the string "7.0", which does not have exactly two decimal
digits and differs from "7.00". -/
theorem C5_counterexample :
    lookupStr ((IB.rows [⟨"c", 1, "b",
          [("CpuUser", [⟨"t", 7⟩]), ("KafkaDataLogsDiskUsed", []),
           ("offlinePartitionsCount", [])]⟩]).headD (J.str ""))
        "\x7b#VALUE\x7d" = some "7.0"
    ∧ lookupStr ((IB.rows [⟨"c", 1, "b",
          [("CpuUser", [⟨"t", 7⟩]), ("KafkaDataLogsDiskUsed", []),
           ("offlinePartitionsCount", [])]⟩]).headD (J.str ""))
        "\x7b#VALUETYPE\x7d" = some "Average"
    ∧ twoDecCheck "7.0" = false
    ∧ "7.0" ≠ "7.00" := by
  refine ⟨rfl, rfl, rfl, by decide⟩

/-- Claim C5 (amended): disc_AWSKafka_Brokers.py serializes every
average-type VALUE (and its per-cluster Sum VALUE) as the value rounded
to two decimals and printed with exactly two decimal digits;
disc_AWSKafka_ItemsBrokers.py instead serializes the raw value with
Python str(), which does not pad to two decimals. -/
theorem C5_two_decimal_values :
    (∀ (all : List BMJson) (p : String) (r : J), r ∈ BK.dataOut all p →
       lookupStr r "\x7b#VALUETYPE\x7d" = some "Average" →
       ∃ v : ℚ, lookupStr r "\x7b#VALUE\x7d" = some (round2fmt v)
         ∧ twoDecCheck (round2fmt v) = true)
    ∧ (∀ (all : List BMJson) (r : J), r ∈ IB.rows all →
       ∃ dp : Datapoint, lookupStr r "\x7b#VALUE\x7d" = some (pyFloatStr dp.average)) := by
  constructor
  · intro all p r hr hvt
    rw [bk_dataOut_spec] at hr
    rcases List.mem_append.mp hr with hr1 | hr2
    · rcases List.mem_cons.mp hr1 with rfl | hr1b
      · rw [lookupStr_status_row_valuetype] at hvt
        cases hvt
      · obtain ⟨b, _, kv, _, _, dp, _, rfl⟩ := bk_mem_avgRowsOf p all r hr1b
        exact ⟨dp.average,
          lookupStr_avgRow_value p b.clusterName (BK.format_broker_name b.brokerName) b.brokerId kv.1 dp,
          twoDecCheck_round2fmt dp.average⟩
    · obtain ⟨kv, _, rfl⟩ := List.mem_map.mp hr2
      exact ⟨kv.2, lookupStr_offRow_value p kv.1 kv.2, twoDecCheck_round2fmt kv.2⟩
  · intro all r hr
    unfold IB.rows at hr
    simp only [List.mem_flatMap, List.mem_map] at hr
    obtain ⟨b, _, kv, _, dp, _, rfl⟩ := hr
    exact ⟨dp, lookupStr_ib_row_value b.clusterName b.brokerName b.brokerId kv.1 dp⟩

/-- Witness for C5 (amended): the spec's example — value 7 is emitted by
disc_AWSKafka_Brokers.py as the fixed-two-decimal string "7.00". -/
theorem C5_two_decimal_values_witness :
    (∃ v : ℚ,
       lookupStr (BK.avgRow "p" "c" (BK.format_broker_name "b") 1 "CpuUser" ⟨"t", 7⟩)
           "\x7b#VALUE\x7d" = some (round2fmt v)
         ∧ twoDecCheck (round2fmt v) = true)
    ∧ round2fmt 7 = "7.00" := by
  constructor
  · refine C5_two_decimal_values.1
      [⟨"c", 1, "b", [("CpuUser", [⟨"t", 7⟩]), ("KafkaDataLogsDiskUsed", []),
          ("offlinePartitionsCount", [])]⟩] "p"
      (BK.avgRow "p" "c" (BK.format_broker_name "b") 1 "CpuUser" ⟨"t", 7⟩) ?_ rfl
    have hd : BK.dataOut
        [⟨"c", 1, "b", [("CpuUser", [⟨"t", 7⟩]), ("KafkaDataLogsDiskUsed", []),
            ("offlinePartitionsCount", [])]⟩] "p"
      = [BK.status_row [⟨"c", 1, "b", [("CpuUser", [⟨"t", 7⟩]),
            ("KafkaDataLogsDiskUsed", []), ("offlinePartitionsCount", [])]⟩] "p",
         BK.avgRow "p" "c" (BK.format_broker_name "b") 1 "CpuUser" ⟨"t", 7⟩,
         BK.offRow "p" "c" 0] := rfl
    rw [hd]
    exact List.mem_cons_of_mem _ (List.mem_cons_self _ _)
  · exact round2fmt_seven

/-- Claim C3: when a non-empty cluster-name filter is supplied and no
enumerated broker/cluster record matches it, disc_AWSKafka_Brokers.py
and disc_AWSKafka_ItemsClusters.py print exactly one compact status
document whose single row has EXIT "2" and a descriptive message, emit
no further rows, and complete normally (no exception, normal process
exit). -/
theorem C3_unmatched_filter_exit2 :
    (∀ (which : String → Bool) (bs : List Broker) (rs : List (List MetricResult)) (p s : String),
       s ≠ "" → (∀ b ∈ bs, b.clusterName ≠ s) →
       (BK.run which bs rs (some s) p).status = PStatus.ok
       ∧ outsOf (BK.run which bs rs (some s) p)
           = [renderC (J.obj [("data", J.arr [BK.zbx_status p "Kafka" 2 0
               (some ("No se encontraron brokers para el cluster \x27" ++ s ++ "\x27"))])])]
       ∧ lookupStr (BK.zbx_status p "Kafka" 2 0
             (some ("No se encontraron brokers para el cluster \x27" ++ s ++ "\x27")))
           "\x7b#EXIT\x7d" = some "2"
       ∧ lookupStr (BK.zbx_status p "Kafka" 2 0
             (some ("No se encontraron brokers para el cluster \x27" ++ s ++ "\x27")))
           "\x7b#MSG\x7d"
           = some ("No se encontraron brokers para el cluster \x27" ++ s ++ "\x27"))
    ∧ (∀ (ce : List Broker) (rs : List (List MetricResult)) (p s : String),
       s ≠ "" → (∀ b ∈ ce, b.clusterName ≠ s) →
       (IC.run ce rs (some s) p).status = PStatus.ok
       ∧ outsOf (IC.run ce rs (some s) p)
           = [renderC (J.obj [("data", J.arr [IC.zbx_status p "Kafka" 2 0
               (some ("No se encontraron clusters para el cluster \x27" ++ s ++ "\x27"))])])]
       ∧ lookupStr (IC.zbx_status p "Kafka" 2 0
             (some ("No se encontraron clusters para el cluster \x27" ++ s ++ "\x27")))
           "\x7b#EXIT\x7d" = some "2"
       ∧ lookupStr (IC.zbx_status p "Kafka" 2 0
             (some ("No se encontraron clusters para el cluster \x27" ++ s ++ "\x27")))
           "\x7b#MSG\x7d"
           = some ("No se encontraron clusters para el cluster \x27" ++ s ++ "\x27")) := by
  constructor
  · intro which bs rs p s hs h
    rw [bk_run_empty which bs rs (some s) p (bk_retained_nil bs s hs h)]
    have hmsg : ("No se encontraron brokers para el cluster \x27" ++ s ++ "\x27") ≠ "" := by
      apply string_append_ne_empty
      apply string_append_ne_empty
      decide
    refine ⟨rfl, by simp [outsOf, outProj, BK.zbx_json_output, pyOptStr], ?_, ?_⟩
    · exact lookupStr_bk_zbx_exit p "Kafka" 2 0 _
    · rw [lookupStr_bk_zbx_msg]
      simp [pyOr, hmsg]
  · intro ce rs p s hs h
    rw [ic_run_empty ce rs (some s) p (ic_retained_nil ce s hs h)]
    have hmsg : ("No se encontraron clusters para el cluster \x27" ++ s ++ "\x27") ≠ "" := by
      apply string_append_ne_empty
      apply string_append_ne_empty
      decide
    refine ⟨rfl, by simp [outsOf, outProj, IC.zbx_json_output, pyOptStr], ?_, ?_⟩
    · exact lookupStr_ic_zbx_exit p "Kafka" 2 0 _
    · rw [lookupStr_ic_zbx_msg]
      simp [pyOr, hmsg]

/-- Witness for C3: one enumerated broker of cluster "c1", filter "zzz"
matching nothing — the run ends normally and the status row carries
EXIT "2". -/
theorem C3_unmatched_filter_exit2_witness :
    (BK.run (fun _ => true) [⟨"c1", 1, "b", "t"⟩] [] (some "zzz") "p").status = PStatus.ok
    ∧ lookupStr (BK.zbx_status "p" "Kafka" 2 0
          (some ("No se encontraron brokers para el cluster \x27" ++ "zzz" ++ "\x27")))
        "\x7b#EXIT\x7d" = some "2" := by
  have h := C3_unmatched_filter_exit2.1 (fun _ => true) [⟨"c1", 1, "b", "t"⟩] [] "p" "zzz"
    (by decide) (by decide)
  exact ⟨h.1, h.2.2.1⟩

/-- Counterexample to C8 as stated: host_cluster_test.py catches the AWS
exception "boom" and prints a status document carrying the exception
text, but its EXIT field is "2", not "1". -/
theorem C8_counterexample :
    outsOf (HCT.run (fun _ => true) (.error "boom") none "p")
      = [renderC (HCT.clusters_output none "p" (some "Error obteniendo clusters: boom"))]
    ∧ lookupStr ((HCT.clusters_data none "p"
          (some "Error obteniendo clusters: boom")).headD (J.str ""))
        "\x7b#EXIT\x7d" = some "2"
    ∧ (some "2" : Option String) ≠ some "1" := by
  refine ⟨rfl, rfl, by decide⟩

/-- Claim C8 (amended): in host_cluster_test.py (the hardened variant) an
exception raised by the AWS call is caught and converted into the single
printed status document, whose MSG carries the exception text — but with
exit code "2" (the generic needs-review code), not "1"; the run
completes normally. -/
theorem C8_api_error_caught (which : String → Bool) (e : String) (f : Option String)
    (p : String) (h1 : which "aws" = true) (h2 : which "jq" = true) :
    (HCT.run which (.error e) f p).status = PStatus.ok
    ∧ outsOf (HCT.run which (.error e) f p)
        = [renderC (HCT.clusters_output none p (some ("Error obteniendo clusters: " ++ e)))]
    ∧ HCT.clusters_data none p (some ("Error obteniendo clusters: " ++ e))
        = [HCT.zbx_json_output p 2 0 (some ("Error obteniendo clusters: " ++ e))]
    ∧ lookupStr (HCT.zbx_json_output p 2 0 (some ("Error obteniendo clusters: " ++ e)))
        "\x7b#EXIT\x7d" = some "2"
    ∧ lookupStr (HCT.zbx_json_output p 2 0 (some ("Error obteniendo clusters: " ++ e)))
        "\x7b#MSG\x7d" = some ("Error obteniendo clusters: " ++ e) := by
  have hmsg : ("Error obteniendo clusters: " ++ e) ≠ "" :=
    string_append_ne_empty _ e (by decide)
  unfold HCT.run
  rw [check_commands_ok which h1 h2]
  refine ⟨rfl, ?_, rfl, lookupStr_hct_zbx_exit p 2 0 _, ?_⟩
  · simp [outsOf, outProj, HCT.get_kafka_clusters, HCT.print_clusters_as_json,
      HCT.truthy, strTruthy]
  · rw [lookupStr_hct_zbx_msg]
    simp [pyOr, hmsg]

/-- Witness for C8 (amended) at a concrete exception text. -/
theorem C8_api_error_caught_witness :
    (HCT.run (fun _ => true) (.error "AccessDenied") none "p").status = PStatus.ok
    ∧ lookupStr (HCT.zbx_json_output "p" 2 0
          (some ("Error obteniendo clusters: " ++ "AccessDenied")))
        "\x7b#EXIT\x7d" = some "2"
    ∧ lookupStr (HCT.zbx_json_output "p" 2 0
          (some ("Error obteniendo clusters: " ++ "AccessDenied")))
        "\x7b#MSG\x7d" = some ("Error obteniendo clusters: " ++ "AccessDenied") := by
  have h := C8_api_error_caught (fun _ => true) "AccessDenied" none "p" rfl rfl
  exact ⟨h.1, h.2.2.2.1, h.2.2.2.2⟩

/-- Counterexample to C1 as stated: a successful
disc_AWSKafka_Brokers.py print (leading EXIT "0") over one broker whose
three series are all empty reports REGISTROS "0", yet one data row (the
per-cluster offlinePartitionsCount row) still follows the status
object. -/
theorem C1_counterexample :
    lookupStr ((BK.dataOut
        [⟨"c1", 1, "b1", [("CpuUser", []), ("KafkaDataLogsDiskUsed", []),
            ("offlinePartitionsCount", [])]⟩] "p").headD (J.str ""))
      "\x7b#EXIT\x7d" = some "0"
    ∧ lookupStr ((BK.dataOut
        [⟨"c1", 1, "b1", [("CpuUser", []), ("KafkaDataLogsDiskUsed", []),
            ("offlinePartitionsCount", [])]⟩] "p").headD (J.str ""))
      "\x7b#REGISTROS\x7d" = some "0"
    ∧ ((BK.dataOut
        [⟨"c1", 1, "b1", [("CpuUser", []), ("KafkaDataLogsDiskUsed", []),
            ("offlinePartitionsCount", [])]⟩] "p").length - 1) = 1 := by
  refine ⟨rfl, rfl, rfl⟩

/-- Claim C1 (amended): in host_cluster_test.py the leading status of a
successful output has EXIT "0" and its REGISTROS equals the number of
rows that follow it; in disc_AWSKafka_Brokers.py REGISTROS counts the
collected datapoints while the number of emitted rows is 1 (status) plus
the average datapoints plus one offlinePartitionsCount row per distinct
cluster — so REGISTROS and the following row count differ whenever a
cluster's offline datapoint count is not exactly one. -/
theorem C1_registros_semantics :
    (∀ (l : List String) (p : String) (m : Option String), l ≠ [] →
       lookupStr ((HCT.clusters_data (some l) p m).headD (J.str ""))
           "\x7b#EXIT\x7d" = some "0"
       ∧ lookupStr ((HCT.clusters_data (some l) p m).headD (J.str ""))
           "\x7b#REGISTROS\x7d"
           = some (toString ((HCT.clusters_data (some l) p m).tail.length)))
    ∧ (∀ (all : List BMJson) (p : String),
       lookupStr ((BK.dataOut all p).headD (J.str "")) "\x7b#REGISTROS\x7d"
           = some (toString (BK.registros all))
       ∧ (BK.dataOut all p).length = 1 + BK.avgPointCount all + (BK.offKeys all).length) := by
  constructor
  · intro l p m hl
    rw [hct_clusters_data_pos l p m hl]
    constructor
    · exact lookupStr_hct_zbx_exit p 0 l.length m
    · simp only [List.headD_cons, List.tail_cons, List.length_map]
      exact lookupStr_hct_zbx_registros p 0 l.length m
  · intro all p
    exact ⟨lookupStr_status_row_registros all p, bk_dataOut_length all p⟩

/-- Witness for C1 (amended): a one-cluster host_cluster_test.py output —
EXIT "0" and REGISTROS equals the single following row. -/
theorem C1_registros_semantics_witness :
    lookupStr ((HCT.clusters_data (some ["k1"]) "p" none).headD (J.str ""))
        "\x7b#EXIT\x7d" = some "0"
    ∧ lookupStr ((HCT.clusters_data (some ["k1"]) "p" none).headD (J.str ""))
        "\x7b#REGISTROS\x7d"
        = some (toString ((HCT.clusters_data (some ["k1"]) "p" none).tail.length)) := by
  exact C1_registros_semantics.1 ["k1"] "p" none (by decide)

/-- Counterexample to C9 as stated: with every external tool absent,
disc_AWSKafka_Brokers.py does not exit 1 — its very first action is the
AWS enumeration call and it still prints its JSON document, because main
never invokes check_commands. -/
theorem C9_counterexample :
    (BK.run (fun _ => false) [] [] none "p").status = PStatus.ok
    ∧ (BK.run (fun _ => false) [] [] none "p").events.head?
        = some (Ev.aws "kafka.list_clusters")
    ∧ outsOf (BK.run (fun _ => false) [] [] none "p") ≠ [] := by
  refine ⟨rfl, rfl, by decide⟩

/-- Claim C9 (amended): host_cluster_test.py,
disc_AWSKafka_ItemsBrokers.py and disc_AWSKafka_hostsClusters.py do exit
with code 1 before any AWS call, printing only a plain (non-JSON)
message, when aws or jq is missing; but disc_AWSKafka_Brokers.py ignores
the tool environment entirely, and disc_AWSKafka_ItemsClusters.py (whose
main takes no tool check at all) never exits with an explicit code. -/
theorem C9_missing_tool_exit1 :
    (∀ (which : String → Bool) (api : Except String (List String))
        (f : Option String) (p : String),
       (which "aws" = false ∨ (which "aws" = true ∧ which "jq" = false)) →
       ∃ c, HCT.run which api f p
         = ⟨[Ev.out ("No se encontro el comando " ++ c)], PStatus.exited 1⟩)
    ∧ (∀ (which : String → Bool) (bs : List Broker) (rs : List (List MetricResult)) (p : String),
       (which "aws" = false ∨ (which "aws" = true ∧ which "jq" = false)) →
       ∃ c, IB.run which bs rs p
         = ⟨[Ev.out ("No se encontro el comando " ++ c)], PStatus.exited 1⟩)
    ∧ (∀ (which : String → Bool) (envs : List HCEnv) (p : String),
       (which "aws" = false ∨ (which "aws" = true ∧ which "jq" = false)) →
       ∃ c, HC.run which envs p
         = ⟨[Ev.file HC.logPath, Ev.out ("No se encontró el comando " ++ c),
             Ev.file HC.logPath, Ev.file HC.logPath], PStatus.exited 1⟩)
    ∧ (∀ (w1 w2 : String → Bool) (bs : List Broker) (rs : List (List MetricResult))
        (f : Option String) (p : String), BK.run w1 bs rs f p = BK.run w2 bs rs f p)
    ∧ (∀ (ce : List Broker) (rs : List (List MetricResult)) (f : Option String)
        (p : String) (c : Nat), (IC.run ce rs f p).status ≠ PStatus.exited c) := by
  refine ⟨?_, ?_, ?_, ?_, ?_⟩
  · intro which api f p h
    rcases h with h | ⟨h1, h2⟩
    · refine ⟨"aws", ?_⟩
      unfold HCT.run
      rw [check_commands_aws_missing which h]
      rfl
    · refine ⟨"jq", ?_⟩
      unfold HCT.run
      rw [check_commands_jq_missing which h1 h2]
      rfl
  · intro which bs rs p h
    rcases h with h | ⟨h1, h2⟩
    · refine ⟨"aws", ?_⟩
      unfold IB.run
      rw [check_commands_aws_missing which h]
      rfl
    · refine ⟨"jq", ?_⟩
      unfold IB.run
      rw [check_commands_jq_missing which h1 h2]
      rfl
  · intro which envs p h
    rcases h with h | ⟨h1, h2⟩
    · refine ⟨"aws", ?_⟩
      unfold HC.run
      rw [hc_check_commands_aws_missing which HC.logPath h]
      rfl
    · refine ⟨"jq", ?_⟩
      unfold HC.run
      rw [hc_check_commands_jq_missing which HC.logPath h1 h2]
      rfl
  · intro w1 w2 bs rs f p
    rfl
  · intro ce rs f p c
    unfold IC.run
    by_cases he : (IC.retained ce f).isEmpty
    · simp [he]
    · simp only [he, Bool.false_eq_true, if_false]
      cases hcol : (IC.collect (IC.retained ce f) rs).2 with
      | error e => simp
      | ok all =>
        cases hall : all with
        | nil => simp [IC.print_metrics_as_json]
        | cons a l => simp [IC.print_metrics_as_json]

/-- Witness for C9 (amended): with aws absent, host_cluster_test.py
exits 1 having printed only the plain missing-command message. -/
theorem C9_missing_tool_exit1_witness :
    ∃ c, HCT.run (fun _ => false) (Except.ok ["k"]) none "p"
      = ⟨[Ev.out ("No se encontro el comando " ++ c)], PStatus.exited 1⟩ := by
  exact C9_missing_tool_exit1.1 (fun _ => false) (Except.ok ["k"]) none "p" (Or.inl rfl)

/-- Counterexample to C2 as stated: a run of
disc_AWSKafka_ItemsBrokers.py (tools present, no brokers enumerated)
prints two JSON documents — the first with json.dumps' default spaced
separators — not exactly one line of compact JSON. -/
theorem C2_counterexample :
    outsOf (IB.run (fun _ => true) [] [] "p")
      = [renderD (IB.zbx_json_output "p" "Kafka" "Metricas obtenidas con exito." "0" 0),
         renderC (J.obj [("data", J.arr [])])]
    ∧ (outsOf (IB.run (fun _ => true) [] [] "p")).length = 2 := by
  exact ⟨rfl, rfl⟩

/-- Claim C2 (amended): with the required tools present,
host_cluster_test.py and disc_AWSKafka_Brokers.py print exactly one
compact JSON document per invocation (on the paths that do not raise);
disc_AWSKafka_ItemsBrokers.py prints two JSON documents — a status one
with the default spaced separators, then the compact data one — besides
writing its two data files; disc_AWSKafka_hostsClusters.py prints one
json.dumps(indent=4) dump, multi-line whenever at least one cluster was
collected, besides its two data files; and
disc_AWSKafka_ItemsClusters.py prints one compact document when nothing
survives the filter and nothing at all otherwise. -/
theorem C2_print_discipline :
    (∀ (which : String → Bool) (api : Except String (List String))
        (f : Option String) (p : String),
       which "aws" = true → which "jq" = true →
       ∃ cl er, outsOf (HCT.run which api f p) = [renderC (HCT.clusters_output cl p er)])
    ∧ (∀ (which : String → Bool) (bs : List Broker) (rs : List (List MetricResult))
        (f : Option String) (p : String),
       (BK.run which bs rs f p).status = PStatus.ok →
       ∃ j, outsOf (BK.run which bs rs f p) = [renderC j])
    ∧ (∀ (which : String → Bool) (bs : List Broker) (rs : List (List MetricResult)) (p : String),
       which "aws" = true → which "jq" = true →
       (IB.run which bs rs p).status = PStatus.ok →
       ∃ j1 j2, outsOf (IB.run which bs rs p) = [renderD j1, renderC j2]
         ∧ Ev.file ("dbs/queries/" ++ p ++ ".Kafka.queries.json") ∈ (IB.run which bs rs p).events
         ∧ Ev.file ("dbs/csv/" ++ p ++ ".Kafka.metrics.csv") ∈ (IB.run which bs rs p).events)
    ∧ (∀ (which : String → Bool) (envs : List HCEnv) (p : String),
       which "aws" = true → which "jq" = true →
       (∀ e ∈ envs, e.arn.isSome = true) →
       ∃ js : List J, outsOf (HC.run which envs p) = [renderI 0 (J.arr js)]
         ∧ js.length = envs.length
         ∧ (envs ≠ [] → ∃ r, renderI 0 (J.arr js) = "[\n" ++ r)
         ∧ Ev.file ("dbs/queries/" ++ p ++ ".Kafka.Cluster.queries.json")
             ∈ (HC.run which envs p).events
         ∧ Ev.file ("dbs/csv/" ++ p ++ ".Kafka.Cluster.metrics.csv")
             ∈ (HC.run which envs p).events)
    ∧ (∀ (ce : List Broker) (rs : List (List MetricResult)) (f : Option String) (p : String),
       ((IC.retained ce f).isEmpty = true →
          ∃ j, outsOf (IC.run ce rs f p) = [renderC j])
       ∧ ((IC.retained ce f).isEmpty = false → outsOf (IC.run ce rs f p) = [])) := by
  refine ⟨?_, ?_, ?_, ?_, ?_⟩
  · intro which api f p h1 h2
    unfold HCT.run
    rw [check_commands_ok which h1 h2]
    exact ⟨_, _, rfl⟩
  · intro which bs rs f p hst
    by_cases he : (BK.retained bs f).isEmpty
    · have hnil : BK.retained bs f = [] := List.isEmpty_iff.mp he
      rw [bk_run_empty which bs rs f p hnil]
      exact ⟨_, rfl⟩
    · have he2 : (BK.retained bs f).isEmpty = false := Bool.not_eq_true _ |>.mp he
      cases hcol : (BK.collect (BK.retained bs f) rs).2 with
      | error e =>
        exfalso
        unfold BK.run at hst
        simp only [he2, Bool.false_eq_true, if_false, hcol] at hst
        cases hst
      | ok all =>
        refine ⟨BK.output all p, ?_⟩
        unfold BK.run
        simp only [he2, Bool.false_eq_true, if_false, hcol]
        simp [outsOf, outProj, List.filterMap_append, List.filterMap_cons,
          bk_collect_outs, BK.print_metrics_as_json]
  · intro which bs rs p h1 h2 hst
    cases hcol : (BK.collect bs rs).2 with
    | error e =>
      exfalso
      unfold IB.run at hst
      rw [check_commands_ok which h1 h2] at hst
      simp only [hcol] at hst
      cases hst
    | ok all =>
      refine ⟨IB.zbx_json_output p "Kafka" "Metricas obtenidas con exito." "0"
          (Int.ofNat (BK.registros all)),
        J.obj [("data", J.arr (IB.rows all))], ?_, ?_, ?_⟩
      · unfold IB.run
        rw [check_commands_ok which h1 h2]
        simp only [hcol]
        simp [outsOf, outProj, List.filterMap_append, List.filterMap_cons,
          bk_collect_outs, IB.print_metrics_as_json]
      · unfold IB.run
        rw [check_commands_ok which h1 h2]
        simp only [hcol]
        simp [IB.print_metrics_as_json]
      · unfold IB.run
        rw [check_commands_ok which h1 h2]
        simp only [hcol]
        simp [IB.print_metrics_as_json]
  · intro which envs p h1 h2 harn
    have hlp := hc_cluster_loop_ok HC.logPath envs harn
    refine ⟨(HC.cluster_loop HC.logPath envs).2.map HC.hcToJ, ?_, ?_, ?_, ?_, ?_⟩
    · unfold HC.run
      rw [hc_check_commands_ok which HC.logPath h1 h2]
      simp [outsOf, outProj, List.filterMap_append, List.filterMap_cons, hlp.1]
    · simp [hlp.2]
    · intro hne
      have hlen := hlp.2
      cases hjs : (HC.cluster_loop HC.logPath envs).2 with
      | nil =>
        rw [hjs] at hlen
        cases envs with
        | nil => exact absurd rfl hne
        | cons e es => simp at hlen
      | cons x xs =>
        simp only [List.map_cons]
        exact renderI_arr_cons (HC.hcToJ x) (xs.map HC.hcToJ)
    · unfold HC.run
      rw [hc_check_commands_ok which HC.logPath h1 h2]
      simp [List.mem_append]
    · unfold HC.run
      rw [hc_check_commands_ok which HC.logPath h1 h2]
      simp [List.mem_append]
  · intro ce rs f p
    constructor
    · intro he
      have hnil : IC.retained ce f = [] := List.isEmpty_iff.mp he
      rw [ic_run_empty ce rs f p hnil]
      exact ⟨_, rfl⟩
    · intro he
      unfold IC.run
      simp only [he, Bool.false_eq_true, if_false]
      cases hcol : (IC.collect (IC.retained ce f) rs).2 with
      | error e =>
        simp [outsOf, outProj, List.filterMap_cons, ic_collect_outs]
      | ok all =>
        simp [outsOf, outProj, List.filterMap_append, List.filterMap_cons,
          ic_collect_outs, ic_print_outs]

/-- Witness for C2 (amended): a concrete host_cluster_test.py run prints
one compact document, and a concrete disc_AWSKafka_ItemsBrokers.py run
prints its two documents and records its two data-file writes. -/
theorem C2_print_discipline_witness :
    (∃ cl er, outsOf (HCT.run (fun _ => true) (Except.ok ["k"]) none "p")
        = [renderC (HCT.clusters_output cl "p" er)])
    ∧ (∃ j1 j2, outsOf (IB.run (fun _ => true) [] [] "p") = [renderD j1, renderC j2]
        ∧ Ev.file ("dbs/queries/" ++ "p" ++ ".Kafka.queries.json")
            ∈ (IB.run (fun _ => true) [] [] "p").events
        ∧ Ev.file ("dbs/csv/" ++ "p" ++ ".Kafka.metrics.csv")
            ∈ (IB.run (fun _ => true) [] [] "p").events) := by
  constructor
  · exact C2_print_discipline.1 (fun _ => true) (Except.ok ["k"]) none "p" rfl rfl
  · exact C2_print_discipline.2.2.1 (fun _ => true) [] [] "p" rfl rfl rfl

end KafkaCW
